import Mathlib

/-!
Personas ABM (`script.js`): a shallow embedding.

The script keeps an in-memory list of `Ciudadano` / `Extranjero` records, loads it from a
REST resource, filters and sorts it for display, and validates form input before create,
update and delete requests.

Modelling conventions

* JS strings are Lean `String`s; the functions on them work on the list of characters.
  `length` counts UTF-16 code units (`longitudJS`).
* JS numbers are `Numero`: an integer, `NaN`, `Infinity` or `-Infinity`.  Every number the
  script computes itself comes from `parseInt`, from `Date.prototype.getDate` or from a
  subtraction of such values.  The conversions from strings round to double precision
  (`aDoble`); `-0` is identified with `0`; a difference of integers is kept exact, its
  sign being the sign of the rounded difference.
* Values stored in record fields are `Valor`: the JS primitives.  Object- and array-valued
  members are not represented.
* The host environment (HTTP responses, the current year, `localeCompare`) is passed in as
  explicit arguments; globals and the parts of the DOM the script reads back are fields of
  `Estado`.
-/

namespace PersonasABM

/-! ## Numbers and primitive values -/

/-- A JS number of the model: `NaN`, an integer, or `Infinity` (`-Infinity` when
`negativo`). -/
inductive Numero
  | nan
  | entero (n : Int)
  | infinito (negativo : Bool)
  deriving DecidableEq

/-- A JS primitive value. -/
inductive Valor
  | undefined
  | null
  | booleano (b : Bool)
  | numero (n : Numero)
  | cadena (s : String)
  deriving DecidableEq

/-- Integer value `n` as a `Valor`. -/
@[match_pattern, reducible]
def Valor.ent (n : Int) : Valor := Valor.numero (Numero.entero n)

/-- The JS comparison `a < b` on numbers: false as soon as one side is `NaN`. -/
def Numero.menor : Numero → Numero → Bool
  | .entero a, .entero b => decide (a < b)
  | .infinito true, .entero _ => true
  | .infinito true, .infinito false => true
  | .entero _, .infinito false => true
  | _, _ => false

/-- The JS comparison `a > b` on numbers. -/
def Numero.mayor (a b : Numero) : Bool := Numero.menor b a

/-- The JS comparison `a <= b` on numbers: false as soon as one side is `NaN`. -/
def Numero.menorIgual : Numero → Numero → Bool
  | .entero a, .entero b => decide (a ≤ b)
  | .infinito true, .entero _ => true
  | .infinito true, .infinito _ => true
  | .entero _, .infinito false => true
  | .infinito false, .infinito false => true
  | _, _ => false

/-- The JS subtraction `a - b` on numbers. -/
def Numero.restar : Numero → Numero → Numero
  | .entero a, .entero b => .entero (a - b)
  | .infinito s, .entero _ => .infinito s
  | .entero _, .infinito s => .infinito (!s)
  | .infinito s, .infinito t => if s = t then .nan else .infinito s
  | _, _ => .nan

/-- The global `isNaN` on a number. -/
def Numero.esNaN : Numero → Bool
  | .nan => true
  | .entero _ => false
  | .infinito _ => false

/-- Conversion `ToString` of a number, as used by template literals: the decimal digits of
an integer (the runtime prints an integer above 2^53 with the shortest digits that
identify its double, and from 10^21 on in exponent notation; the script prints day and
month numbers only). -/
def Numero.aCadena : Numero → String
  | .nan => "NaN"
  | .entero n => toString n
  | .infinito false => "Infinity"
  | .infinito true => "-Infinity"

/-- The unary minus on numbers, applied when `negativo`. -/
def Numero.conSigno (negativo : Bool) : Numero → Numero
  | .nan => .nan
  | .entero n => .entero (if negativo then -n else n)
  | .infinito s => .infinito (if negativo then !s else s)

/-- Number of halvings that bring `n` below 2^53, at most `combustible`. -/
def desplazamiento : Nat → Nat → Nat
  | 0, _ => 0
  | combustible + 1, n =>
    if n < 9007199254740992 then 0 else desplazamiento combustible (n / 2) + 1

/-- The number 2^1024, the first power of two that is too large for a double. -/
def dosElevadoA1024 : Nat :=
  179769313486231590772930519078902473361797697894230657273430081157732675805500963132708477322407536021120113879871393357658789768814416622492847430639474124377767893424865485276302219601246094119453082952085005768838150682342462881473913110540827237163350510684586298239947245938479716304835356329624224137216

/-- The Number value of a natural number: the nearest double, ties to the even
significand, `Infinity` when that is 2^1024 or more.  Below 2^53 (9007199254740992) every
integer is a double.  Above, `s` is the number of binary digits beyond 53, `q` the leading
53 digits and `r` the rest, which decides the rounding of `q`.  `combustible` bounds the
number of binary digits of `n` beyond 53. -/
def aDoble (combustible : Nat) (n : Nat) : Numero :=
  if n < 9007199254740992 then Numero.entero n
  else
    let s := desplazamiento combustible n
    let q := n / 2 ^ s
    let r := n % 2 ^ s
    let m := if 2 ^ s < 2 * r ∨ (2 * r = 2 ^ s ∧ q % 2 = 1) then q + 1 else q
    if dosElevadoA1024 ≤ m * 2 ^ s then Numero.infinito false
    else Numero.entero ((m * 2 ^ s : Nat) : Int)

/-! ## Strings: white space, `trim`, `length`, `substring` -/

/-- The characters `WhiteSpace` and `LineTerminator` of ECMAScript: the ones removed by
`trim` and skipped by `parseInt` and by the string-to-number conversion. -/
def esEspacioJS (c : Char) : Bool :=
  let n := c.toNat
  n == 0x9 || n == 0xA || n == 0xB || n == 0xC || n == 0xD || n == 0x20 || n == 0xA0 ||
  n == 0x1680 || (decide (0x2000 ≤ n) && decide (n ≤ 0x200A)) || n == 0x2028 || n == 0x2029 ||
  n == 0x202F || n == 0x205F || n == 0x3000 || n == 0xFEFF

/-- Removes leading white space. -/
def recortarInicio (s : List Char) : List Char := s.dropWhile esEspacioJS

/-- The method `String.prototype.trim`. -/
def recortar (s : List Char) : List Char :=
  (recortarInicio (recortarInicio s).reverse).reverse

/-- The test `!s || s.trim() === ""` on a string `s`. -/
def esBlanco (s : String) : Bool := s.data.isEmpty || (recortar s.data).isEmpty

/-- The property `length` of a string: the number of UTF-16 code units. -/
def longitudJS (s : List Char) : Nat :=
  (s.map (fun c => if c.toNat < 0x10000 then 1 else 2)).sum

/-- The method `substring(i, j)` for `i ≤ j`, on a string whose characters each take one
UTF-16 code unit (the script applies it only to strings that passed `isNaN`, which are
made of such characters: see `bmp_of_esLiteralNumerico`). -/
def substring (s : List Char) (i j : Nat) : List Char := (s.drop i).take (j - i)

/-! ## `parseInt` -/

/-- Value of a character as a digit in some radix up to 36. -/
def valorDeDigito (c : Char) : Option Nat :=
  if c.isDigit then some (c.toNat - 48)
  else if c.isLower then some (c.toNat - 87)
  else if c.isUpper then some (c.toNat - 55)
  else none

/-- Whether `c` is a digit in radix `R`. -/
def esDigitoEnBase (R : Nat) (c : Char) : Bool :=
  match valorDeDigito c with
  | some v => decide (v < R)
  | none => false

/-- The global `parseInt(cadena, radix)`, with `radix = 0` for a call without radix.  The
integer spelled by the digits is rounded to a double (for more than 20 decimal digits
ECMAScript lets an implementation round less exactly). -/
def parseInt (cadena : List Char) (radix : Nat) : Numero :=
  let s := recortarInicio cadena
  let negativo : Bool := match s with
    | '-' :: _ => true
    | _ => false
  let s := match s with
    | '+' :: r => r
    | '-' :: r => r
    | _ => s
  if radix ≠ 0 ∧ (radix < 2 ∨ 36 < radix) then Numero.nan
  else
    let base : Nat := if radix = 0 then 10 else radix
    let quitaPrefijo : Bool := radix == 0 || radix == 16
    let sb : List Char × Nat :=
      if quitaPrefijo then
        match s with
        | '0' :: 'x' :: r => (r, 16)
        | '0' :: 'X' :: r => (r, 16)
        | _ => (s, base)
      else (s, base)
    let z := sb.1.takeWhile (esDigitoEnBase sb.2)
    if z.isEmpty then Numero.nan
    else
      let n : Nat := z.foldl (fun acc c => acc * sb.2 + (valorDeDigito c).getD 0) 0
      (aDoble (6 * z.length) n).conSigno negativo

/-! ## `isNaN` on a string: the grammar `StringNumericLiteral` -/

/-- Production `SignedInteger`: an optional sign and at least one decimal digit. -/
def esEnteroConSigno (s : List Char) : Bool :=
  match s with
  | '+' :: d => !d.isEmpty && d.all Char.isDigit
  | '-' :: d => !d.isEmpty && d.all Char.isDigit
  | d => !d.isEmpty && d.all Char.isDigit

/-- An optional `ExponentPart` and nothing after it. -/
def esExponenteOpcional (s : List Char) : Bool :=
  match s with
  | [] => true
  | c :: r => (c == 'e' || c == 'E') && esEnteroConSigno r

/-- Production `StrUnsignedDecimalLiteral`. -/
def esDecimalSinSigno (s : List Char) : Bool :=
  s == "Infinity".data ||
  (match s.dropWhile Char.isDigit with
   | '.' :: r =>
     (!(s.takeWhile Char.isDigit).isEmpty || !(r.takeWhile Char.isDigit).isEmpty) &&
       esExponenteOpcional (r.dropWhile Char.isDigit)
   | r => !(s.takeWhile Char.isDigit).isEmpty && esExponenteOpcional r)

/-- Production `StrDecimalLiteral`. -/
def esDecimalConSigno (s : List Char) : Bool :=
  match s with
  | '+' :: r => esDecimalSinSigno r
  | '-' :: r => esDecimalSinSigno r
  | r => esDecimalSinSigno r

/-- Whether `c` is a hexadecimal digit. -/
def esDigitoHex (c : Char) : Bool :=
  c.isDigit || (decide ('a' ≤ c) && decide (c ≤ 'f')) || (decide ('A' ≤ c) && decide (c ≤ 'F'))

/-- Production `NonDecimalIntegerLiteral`: binary, octal or hexadecimal, unsigned. -/
def esEnteroNoDecimal (s : List Char) : Bool :=
  match s with
  | '0' :: 'b' :: d => !d.isEmpty && d.all (fun c => c == '0' || c == '1')
  | '0' :: 'B' :: d => !d.isEmpty && d.all (fun c => c == '0' || c == '1')
  | '0' :: 'o' :: d => !d.isEmpty && d.all (fun c => decide ('0' ≤ c) && decide (c ≤ '7'))
  | '0' :: 'O' :: d => !d.isEmpty && d.all (fun c => decide ('0' ≤ c) && decide (c ≤ '7'))
  | '0' :: 'x' :: d => !d.isEmpty && d.all esDigitoHex
  | '0' :: 'X' :: d => !d.isEmpty && d.all esDigitoHex
  | _ => false

/-- Whether the string converts to a number other than `NaN`: it is white space only, or a
`StrNumericLiteral` surrounded by optional white space. -/
def esLiteralNumerico (s : List Char) : Bool :=
  (recortar s).isEmpty || esEnteroNoDecimal (recortar s) || esDecimalConSigno (recortar s)

/-- The global `isNaN` applied to a string. -/
def isNaNCadena (s : String) : Bool := !esLiteralNumerico s.data

/-! ## The calendar behind `new Date(anio, mes, 0).getDate()` -/

/-- Gregorian leap years. -/
def esBisiesto (anio : Int) : Bool :=
  (anio % 4 == 0 && anio % 100 != 0) || anio % 400 == 0

/-- Number of days of the month with index `indice` (0 = January) of year `anio`. -/
def diasDelMes (anio : Int) (indice : Int) : Int :=
  if indice = 1 then (if esBisiesto anio then 29 else 28)
  else if indice = 3 ∨ indice = 5 ∨ indice = 8 ∨ indice = 10 then 30
  else 31

/-- The expression `new Date(anio, mes, 0).getDate()`: day 0 of the month with index `mes`
is the last day of the month before it, in the Gregorian calendar (the date is built and
read back in the same local time, whose offset plays no part).  A `NaN` argument gives an
invalid date, whose `getDate()` is `NaN`; years 0 to 99 stand for 1900 to 1999. -/
def ultimoDia (anio mes : Numero) : Numero :=
  match anio, mes with
  | .entero a, .entero m =>
    let a := if 0 ≤ a ∧ a ≤ 99 then 1900 + a else a
    Numero.entero (diasDelMes (a + (m - 1) / 12) ((m - 1) % 12))
  | _, _ => Numero.nan

/-! ## Validation -/

/-- The function `validarFechaNacimiento`; `anioActual` is `new Date().getFullYear()`.
The result is `none` for `null` and `some mensaje` for an error message. -/
def validarFechaNacimiento (anioActual : Int) (fechaNacimiento : String) : Option String :=
  if isNaNCadena fechaNacimiento then
    some "La fecha de nacimiento debe ser un número."
  else
    let fechaStr := fechaNacimiento.data
    if longitudJS fechaStr ≠ 8 then
      some "La fecha de nacimiento debe tener exactamente 8 dígitos."
    else
      let anio := parseInt (substring fechaStr 0 4) 10
      let mes := parseInt (substring fechaStr 4 6) 10
      let dia := parseInt (substring fechaStr 6 8) 10
      if anio.menor (.entero 1900) || anio.mayor (.entero anioActual) then
        some "El año debe estar entre 1900 y el año actual."
      else if mes.menor (.entero 1) || mes.mayor (.entero 12) then
        some "El mes debe estar entre 01 y 12."
      else
        let diasEnMes := ultimoDia anio mes
        if dia.menor (.entero 1) || dia.mayor diasEnMes then
          some ("El día debe estar entre 01 y " ++ diasEnMes.aCadena ++ " para el mes " ++
            mes.aCadena ++ ".")
        else
          none

/-- Ways in which a piece of the script stops without a result.  `typeError` and
`referenceError` are the JS exceptions of those names; `noModelado` marks a numeric
conversion whose result is not an integer or `NaN`, which `Numero` cannot hold. -/
inductive Fallo
  | typeError
  | referenceError
  | noModelado
  deriving DecidableEq

/-- The object built from the form, as received by the validation functions:
`nombre`, `apellido`, `fechaNacimiento`, `paisOrigen` and `tipoSeleccionado` are values of
form controls (strings), `dni` is a result of `parseInt`, `id` is a result of `parseInt`
or absent (`undefined`). -/
structure Datos where
  id : Valor
  nombre : String
  apellido : String
  fechaNacimiento : String
  dni : Numero
  paisOrigen : String
  tipoSeleccionado : String
  deriving DecidableEq

/-- The function `validarDatosCiudadano`. -/
def validarDatosCiudadano (datos : Datos) : Option String :=
  if datos.dni.esNaN || datos.dni.menorIgual (.entero 0) then
    some "El DNI debe ser mayor a 0."
  else
    none

/-- The function `validarDatosExtranjero` (defined by the script, called from nowhere). -/
def validarDatosExtranjero (datos : Datos) : Option String :=
  if esBlanco datos.paisOrigen then
    some "El pais de Origen no puede estar vacio."
  else
    none

/-- The function `validarDatosPersona`.  The branch for `'camion'` calls
`validarDatosCamion`, which the script does not define: a `ReferenceError`. -/
def validarDatosPersona (anioActual : Int) (datos : Datos) : Except Fallo (Option String) :=
  if esBlanco datos.nombre then
    .ok (some "El nombre no puede estar vacío.")
  else if esBlanco datos.apellido then
    .ok (some "El apellido no puede estar vacío.")
  else
    match validarFechaNacimiento anioActual datos.fechaNacimiento with
    | some resultado => .ok (some resultado)
    | none =>
      if datos.tipoSeleccionado = "ciudadano" then
        .ok (validarDatosCiudadano datos)
      else if datos.tipoSeleccionado = "camion" then
        .error Fallo.referenceError
      else
        .ok (some "Tipo seleccionado no válido. Por favor, seleccione 'ciudadano' o 'camion'.")

/-! ## Records -/

/-- The classes `Ciudadano` and `Extranjero` (both extend `Persona`): five fields each,
holding whatever values the constructor was given. -/
inductive Persona
  | ciudadano (id nombre apellido fechaNacimiento dni : Valor)
  | extranjero (id nombre apellido fechaNacimiento paisOrigen : Valor)
  deriving DecidableEq

/-- Property `id`. -/
def Persona.id : Persona → Valor
  | .ciudadano id _ _ _ _ => id
  | .extranjero id _ _ _ _ => id

/-- Property `nombre`. -/
def Persona.nombre : Persona → Valor
  | .ciudadano _ n _ _ _ => n
  | .extranjero _ n _ _ _ => n

/-- Property `apellido`. -/
def Persona.apellido : Persona → Valor
  | .ciudadano _ _ a _ _ => a
  | .extranjero _ _ a _ _ => a

/-- Property `fechaNacimiento`. -/
def Persona.fechaNacimiento : Persona → Valor
  | .ciudadano _ _ _ f _ => f
  | .extranjero _ _ _ f _ => f

/-- Property `dni`: `undefined` on an `Extranjero`. -/
def Persona.dni : Persona → Valor
  | .ciudadano _ _ _ _ d => d
  | .extranjero _ _ _ _ _ => .undefined

/-- Property `paisOrigen`: `undefined` on a `Ciudadano`. -/
def Persona.paisOrigen : Persona → Valor
  | .ciudadano _ _ _ _ _ => .undefined
  | .extranjero _ _ _ _ p => p

/-- The test `persona instanceof Ciudadano`. -/
def Persona.esCiudadano : Persona → Bool
  | .ciudadano _ _ _ _ _ => true
  | .extranjero _ _ _ _ _ => false

/-- The test `persona instanceof Extranjero`. -/
def Persona.esExtranjero : Persona → Bool
  | .ciudadano _ _ _ _ _ => false
  | .extranjero _ _ _ _ _ => true

/-- Assignment `persona.id = id`. -/
def Persona.conId (id : Valor) : Persona → Persona
  | .ciudadano _ n a f d => .ciudadano id n a f d
  | .extranjero _ n a f p => .extranjero id n a f p

/-! ## Plain objects and JSON -/

/-- A plain object with primitive members, as a list of its members (distinct keys). -/
abbrev Objeto := List (String × Valor)

/-- Property read `o[k]`: `undefined` when the object has no such member. -/
def Objeto.leer (o : Objeto) (k : String) : Valor := (o.lookup k).getD Valor.undefined

/-- Whether the read `o[k]` gives something other than `undefined`. -/
def Objeto.tiene (o : Objeto) (k : String) : Bool := decide (Objeto.leer o k ≠ Valor.undefined)

/-- Property write `o[k] = v` on a plain object: replaces the member or appends it. -/
def Objeto.asignar (k : String) (v : Valor) : Objeto → Objeto
  | [] => [(k, v)]
  | (k2, v2) :: r => if k2 = k then (k, v) :: r else (k2, v2) :: Objeto.asignar k v r

/-- Object spread `{ ...a, ...b }`. -/
def Objeto.extender (a b : Objeto) : Objeto := b.foldl (fun o kv => Objeto.asignar kv.1 kv.2 o) a

/-- JSON text of an object with primitive members, kept as the sequence of members it
spells out.  Writing the characters and reading them back is the runtime's part. -/
structure TextoJson where
  miembros : List (String × Valor)
  deriving DecidableEq

/-- What `JSON.stringify` writes for one member of an object: nothing when the value is
`undefined`, `null` when it is `NaN` or infinite, the value itself otherwise. -/
def miembroJson (kv : String × Valor) : Option (String × Valor) :=
  match kv.2 with
  | Valor.undefined => none
  | Valor.numero Numero.nan => some (kv.1, Valor.null)
  | Valor.numero (Numero.infinito _) => some (kv.1, Valor.null)
  | v => some (kv.1, v)

/-- The call `JSON.stringify(o)` on a plain object: a member whose value is `undefined`
is left out and `NaN` is written as `null`. -/
def jsonStringify (o : Objeto) : TextoJson :=
  ⟨o.filterMap miembroJson⟩

/-- The call `JSON.parse(t)` on the text of an object. -/
def jsonParse (t : TextoJson) : Objeto := t.miembros

/-- The method `Persona.prototype.toJson` (reached through `super.toJson()`). -/
def Persona.toJsonBase (p : Persona) : TextoJson :=
  jsonStringify [("id", p.id), ("nombre", p.nombre), ("apellido", p.apellido),
    ("fechaNacimiento", p.fechaNacimiento)]

/-- The methods `Ciudadano.prototype.toJson` and `Extranjero.prototype.toJson`. -/
def Persona.toJson (p : Persona) : TextoJson :=
  match p with
  | .ciudadano _ _ _ _ dni =>
    jsonStringify (Objeto.extender (jsonParse p.toJsonBase) [("dni", dni)])
  | .extranjero _ _ _ _ paisOrigen =>
    jsonStringify (Objeto.extender (jsonParse p.toJsonBase) [("paisOrigen", paisOrigen)])

/-- An element of a parsed response array: a primitive (`null`, a number, a string, a
boolean) or an object.  A nested array has none of the members the script reads and
behaves like `objeto []`. -/
inductive Elemento
  | primitivo (v : Valor)
  | objeto (o : Objeto)
  deriving DecidableEq

/-- Property read `item[k]` for the member names used by the script (`id`, `nombre`,
`apellido`, `fechaNacimiento`, `dni`, `paisOrigen`): a `TypeError` on `null` and
`undefined`, `undefined` on the other primitives. -/
def Elemento.leer (item : Elemento) (k : String) : Except Fallo Valor :=
  match item with
  | .primitivo .undefined => .error Fallo.typeError
  | .primitivo .null => .error Fallo.typeError
  | .primitivo _ => .ok Valor.undefined
  | .objeto o => .ok (Objeto.leer o k)

/-- The callback of `data.map` in `cargarDatos`: `some` record, or `none` when the callback
returns `undefined`. -/
def decodificar (item : Elemento) : Except Fallo (Option Persona) :=
  match item.leer "paisOrigen", item.leer "dni", item.leer "id", item.leer "nombre",
    item.leer "apellido", item.leer "fechaNacimiento" with
  | .ok paisOrigen, .ok dni, .ok id, .ok nombre, .ok apellido, .ok fechaNacimiento =>
    if paisOrigen ≠ Valor.undefined then
      .ok (some (Persona.extranjero id nombre apellido fechaNacimiento paisOrigen))
    else if dni ≠ Valor.undefined then
      .ok (some (Persona.ciudadano id nombre apellido fechaNacimiento dni))
    else
      .ok none
  | _, _, _, _, _, _ => .error Fallo.typeError

/-- The expression `data.map(item => ...)` of `cargarDatos`: stops at the first element on
which the callback throws. -/
def decodificarTodos : List Elemento → Except Fallo (List (Option Persona))
  | [] => .ok []
  | item :: resto =>
    match decodificar item with
    | .error f => .error f
    | .ok p =>
      match decodificarTodos resto with
      | .error f => .error f
      | .ok ps => .ok (p :: ps)

/-! ## Operators on values -/

/-- The operator `a === b` on primitives. -/
def estrictamenteIgual (a b : Valor) : Bool :=
  match a, b with
  | .numero .nan, _ => false
  | _, .numero .nan => false
  | a, b => decide (a = b)

/-- Conversion `ToBoolean`: the truthiness of a value. -/
def esVerdadero : Valor → Bool
  | .undefined => false
  | .null => false
  | .booleano b => b
  | .numero .nan => false
  | .numero (.entero n) => decide (n ≠ 0)
  | .numero (.infinito _) => true
  | .cadena s => !s.data.isEmpty

/-- Conversion `ToString` of a primitive. -/
def Valor.aCadena : Valor → String
  | .undefined => "undefined"
  | .null => "null"
  | .booleano true => "true"
  | .booleano false => "false"
  | .numero n => n.aCadena
  | .cadena s => s

/-- Value of a string of decimal digits. -/
def valorDecimal (ds : List Char) : Nat := ds.foldl (fun acc c => acc * 10 + (c.toNat - 48)) 0

/-- The Number value of an unsigned decimal literal without fraction or exponent: the
rounded value of a string of digits, `Infinity` for the literal of that name; the other
literals are reported as `noModelado`. -/
def decimalANumero (d : List Char) : Except Fallo Numero :=
  if d.all Char.isDigit then .ok (aDoble (4 * d.length) (valorDecimal d))
  else if d = "Infinity".data then .ok (Numero.infinito false)
  else .error Fallo.noModelado

/-- Conversion `StringToNumber`: `NaN` for a string that is no numeric literal, 0 for white
space, the rounded integer for a signed string of decimal digits, the infinities for the
signed literal `Infinity`; the other literals (fraction, exponent, other radix) are
reported as `noModelado`. -/
def cadenaANumero (s : List Char) : Except Fallo Numero :=
  if !esLiteralNumerico s then .ok Numero.nan
  else if (recortar s).isEmpty then .ok (Numero.entero 0)
  else
    match recortar s with
    | '+' :: d => decimalANumero d
    | '-' :: d =>
      match decimalANumero d with
      | .ok n => .ok (n.conSigno true)
      | .error f => .error f
    | d => decimalANumero d

/-- Conversion `ToNumber` of a primitive. -/
def Valor.aNumero : Valor → Except Fallo Numero
  | .undefined => .ok Numero.nan
  | .null => .ok (Numero.entero 0)
  | .booleano true => .ok (Numero.entero 1)
  | .booleano false => .ok (Numero.entero 0)
  | .numero n => .ok n
  | .cadena s => cadenaANumero s.data

/-- The operator `a - b` on primitives. -/
def restarValores (a b : Valor) : Except Fallo Numero :=
  match a.aNumero, b.aNumero with
  | .ok x, .ok y => .ok (x.restar y)
  | .error f, _ => .error f
  | _, .error f => .error f

/-! ## Filtering and sorting -/

/-- The function `filtrarPersonas(filtro, listaPersonas)`. -/
def filtrarPersonas (filtro : Valor) (listaPersonas : List Persona) : List Persona :=
  listaPersonas.filter (fun persona =>
    if filtro = Valor.cadena "ciudadano" then persona.esCiudadano
    else if filtro = Valor.cadena "extranjeros" then persona.esExtranjero
    else true)

/-- The function `obtenerValorParaOrdenar(dato, columna)`. -/
def obtenerValorParaOrdenar (dato : Persona) (columna : String) : Valor :=
  if columna = "id" then dato.id
  else if columna = "nombre" then dato.nombre
  else if columna = "apellido" then dato.apellido
  else if columna = "fechaNacimiento" then dato.fechaNacimiento
  else if columna = "dni" then (if esVerdadero dato.dni then dato.dni else Valor.ent 0)
  else if columna = "paisOrigen" then dato.paisOrigen
  else Valor.cadena ""

/-- The comparison callback of `ordenarTabla`.  `localeCompare` is the runtime's
`String.prototype.localeCompare`; calling it on a value that is not a string is a
`TypeError`. -/
def comparador (localeCompare : String → String → Int) (ordenAscendente : Bool)
    (columna : String) (a b : Persona) : Except Fallo Numero :=
  let valorA := obtenerValorParaOrdenar a columna
  let valorB := obtenerValorParaOrdenar b columna
  match valorA with
  | .cadena sa =>
    if ordenAscendente then .ok (Numero.entero (localeCompare sa valorB.aCadena))
    else
      match valorB with
      | .cadena sb => .ok (Numero.entero (localeCompare sb sa))
      | _ => .error Fallo.typeError
  | _ =>
    if ordenAscendente then restarValores valorA valorB else restarValores valorB valorA

/-- Insertion of `x` into a list sorted by `cmp`, before the first element that `cmp` does
not put before `x`; a comparison result of `NaN` counts as 0. -/
def insertarOrdenado {α : Type} (cmp : α → α → Except Fallo Numero) (x : α) :
    List α → Except Fallo (List α)
  | [] => .ok [x]
  | y :: ys =>
    match cmp x y with
    | .error f => .error f
    | .ok v =>
      if v.mayor (Numero.entero 0) then
        match insertarOrdenado cmp x ys with
        | .error f => .error f
        | .ok r => .ok (y :: r)
      else .ok (x :: y :: ys)

/-- The method `Array.prototype.sort(cmp)`, which ECMAScript requires to be stable, as a
stable insertion sort.  For a comparison function that never throws and is a consistent
ordering, every conforming implementation returns this list. -/
def ordenarJS {α : Type} (cmp : α → α → Except Fallo Numero) : List α → Except Fallo (List α)
  | [] => .ok []
  | x :: xs =>
    match ordenarJS cmp xs with
    | .error f => .error f
    | .ok r => insertarOrdenado cmp x r

/-! ## State -/

/-- Values of the controls of the form `#form-abm`. -/
structure Formulario where
  id : String
  nombre : String
  apellido : String
  fechaNacimiento : String
  dni : String
  paisOrigen : String
  tipo : String
  deriving DecidableEq

/-- A request sent to the REST resource, with the record or id it carries. -/
inductive Peticion
  | get
  | post (cuerpo : Option Persona)
  | put (cuerpo : Option Persona)
  | delete (id : Valor)
  deriving DecidableEq

/-- The globals of the script (`personas`, `ordenAscendente`, `modoActual`) and the parts
of the page it writes and reads back: the value of the select `#filtro`, the form, the
rows of the table body (one per record, in order), whether the form and the spinner are
displayed, the messages passed to `alert` and the requests sent, oldest first. -/
structure Estado where
  personas : List Persona
  ordenAscendente : Bool
  modoActual : String
  filtro : String
  formulario : Formulario
  tabla : List Persona
  formularioVisible : Bool
  spinnerVisible : Bool
  alertas : List String
  peticiones : List Peticion
  deriving DecidableEq

/-- The state when the script has been evaluated and nothing has run yet. -/
def Estado.inicial : Estado :=
  { personas := [], ordenAscendente := true, modoActual := "", filtro := "",
    formulario := ⟨"", "", "", "", "", "", ""⟩, tabla := [], formularioVisible := false,
    spinnerVisible := false, alertas := [], peticiones := [] }

/-- State of a run together with the exception that ended it, if any. -/
structure Resultado where
  estado : Estado
  excepcion : Option Fallo
  deriving DecidableEq

/-- The function `mostrarSpinner`. -/
def mostrarSpinner (e : Estado) : Estado := { e with spinnerVisible := true }

/-- The function `ocultarSpinner`. -/
def ocultarSpinner (e : Estado) : Estado := { e with spinnerVisible := false }

/-- The global `alert`. -/
def alert (mensaje : String) (e : Estado) : Estado := { e with alertas := e.alertas ++ [mensaje] }

/-- Sending of a request. -/
def enviar (p : Peticion) (e : Estado) : Estado := { e with peticiones := e.peticiones ++ [p] }

/-- The function `ocultarFormularioABM`. -/
def ocultarFormularioABM (e : Estado) : Estado := { e with formularioVisible := false }

/-- The function `limpiarFormularioABM`: empties every control of the form but `id`. -/
def limpiarFormularioABM (e : Estado) : Estado :=
  { e with formulario := ⟨e.formulario.id, "", "", "", "", "", ""⟩ }

/-- The function `actualizarTabla(filtro, personasParaMostrar)`.  The second argument is
`none` when the call leaves it out: its default value `window.listaPersonas` is a property
the script never sets, so `filtrarPersonas` receives `undefined` and falls back on its own
default, the global `personas`. -/
def actualizarTabla (filtro : Valor) (personasParaMostrar : Option (List Persona))
    (e : Estado) : Estado :=
  { e with tabla := filtrarPersonas filtro (personasParaMostrar.getD e.personas) }

/-- The function `ordenarTabla(columna)`.  An exception of the comparison function leaves
the state as it was. -/
def ordenarTabla (localeCompare : String → String → Int) (columna : String) (e : Estado) :
    Except Fallo Estado :=
  let filtroActual := Valor.cadena e.filtro
  let datosFiltrados := filtrarPersonas filtroActual e.personas
  match ordenarJS (comparador localeCompare e.ordenAscendente columna) datosFiltrados with
  | .error f => .error f
  | .ok ordenados =>
    .ok (actualizarTabla filtroActual (some ordenados)
      { e with ordenAscendente := !e.ordenAscendente })

/-! ## Load -/

/-- Result of `JSON.parse(xhttp.responseText)`. -/
inductive Documento
  | invalido
  | noArreglo
  | arreglo (data : List Elemento)
  deriving DecidableEq

/-- The function `cargarDatos`, run until the request has completed with the given HTTP
status and body. -/
def cargarDatos (status : Nat) (cuerpo : Documento) (e : Estado) : Estado :=
  let e := enviar Peticion.get (mostrarSpinner e)
  if status = 200 then
    match cuerpo with
    | .arreglo data =>
      match decodificarTodos data with
      | .ok decodificados =>
        ocultarSpinner (actualizarTabla (Valor.cadena e.filtro) none
          { e with personas := decodificados.filterMap id })
      | .error _ => ocultarSpinner (alert "No se pudieron cargar los datos." e)
    | _ => ocultarSpinner (alert "No se pudieron cargar los datos." e)
  else
    ocultarSpinner (alert "No se pudo cargar la lista de personas. Intente nuevamente." e)

/-! ## Update -/

/-- Outcome of a `fetch` whose body is read as text or not at all: a response with
`response.ok`, with the text of its body; a response with another status; or a rejected
promise, with the message of its error. -/
inductive Respuesta
  | exito (texto : String)
  | noOk
  | fallo (mensaje : String)
  deriving DecidableEq

/-- The method `findIndex` with the callback `persona => persona.id === id`:
`none` stands for -1. -/
def findIndexPorId (id : Valor) : List Persona → Option Nat
  | [] => none
  | p :: ps =>
    if estrictamenteIgual p.id id then some 0
    else (findIndexPorId id ps).map (fun i => i + 1)

/-- The object `datosPersona` that `modificarPersona` builds from the controls of the
form: `nombre` is trimmed, `dni` goes through `parseInt`, there is no `id`. -/
def datosPersonaDelFormulario (f : Formulario) : Datos :=
  { id := Valor.undefined
    nombre := String.mk (recortar f.nombre.data)
    apellido := f.apellido
    fechaNacimiento := f.fechaNacimiento
    dni := parseInt f.dni.data 0
    paisOrigen := f.paisOrigen
    tipoSeleccionado := f.tipo }

/-- The record `new Ciudadano(id, nombre, apellido, fechaNacimiento, dni)` that
`modificarPersona` builds from the controls of the form. -/
def ciudadanoDelFormulario (f : Formulario) : Persona :=
  Persona.ciudadano (Valor.numero (parseInt f.id.data 0))
    (Valor.cadena (String.mk (recortar f.nombre.data))) (Valor.cadena f.apellido)
    (Valor.cadena f.fechaNacimiento) (Valor.numero (parseInt f.dni.data 0))

/-- The part of `modificarPersona` that runs before the request is answered: reads the
form, validates and sends the `PUT`.  The second component is `some personaModificado`
when the request was sent (`personaModificado` itself is `none` when it was left
`undefined`), and `none` when the function returned or threw before sending.  For the
type `"extranejro"` the script constructs `Camion`, a class it does not define: a
`ReferenceError`. -/
def modificarPersonaEnvio (anioActual : Int) (e : Estado) :
    Resultado × Option (Option Persona) :=
  let e := mostrarSpinner e
  let tipo := e.formulario.tipo
  match validarDatosPersona anioActual (datosPersonaDelFormulario e.formulario) with
  | .error f => (⟨e, some f⟩, none)
  | .ok (some errorMensaje) => (⟨ocultarSpinner (alert errorMensaje e), none⟩, none)
  | .ok none =>
    if tipo = "ciudadano" then
      let personaModificado := ciudadanoDelFormulario e.formulario
      (⟨enviar (Peticion.put (some personaModificado)) e, none⟩, some (some personaModificado))
    else if tipo = "extranejro" then
      (⟨e, some Fallo.referenceError⟩, none)
    else
      (⟨enviar (Peticion.put none) e, none⟩, some none)

/-- The handlers `then` / `catch` of `modificarPersona`, run on the answer to the `PUT`. -/
def modificarPersonaRespuesta (personaModificado : Option Persona) (r : Respuesta)
    (e : Estado) : Estado :=
  match r with
  | .fallo mensaje =>
    alert ("No se pudo realizar la modificación: " ++ mensaje) (ocultarSpinner e)
  | .noOk =>
    alert ("No se pudo realizar la modificación: " ++ "No se pudo modificar.")
      (ocultarSpinner (ocultarSpinner e))
  | .exito texto =>
    let e := alert texto (ocultarSpinner e)
    match personaModificado with
    | some pm =>
      let e := match findIndexPorId pm.id e.personas with
        | some index => { e with personas := e.personas.set index pm }
        | none => e
      ocultarFormularioABM (actualizarTabla (Valor.cadena e.filtro) none e)
    | none =>
      if e.personas.isEmpty then
        ocultarFormularioABM (actualizarTabla (Valor.cadena e.filtro) none e)
      else
        alert ("No se pudo realizar la modificación: " ++
          "Cannot read properties of undefined (reading 'id')") (ocultarSpinner e)

/-- The function `modificarPersona`, run until the promise chain of its request has
settled on the answer `r`. -/
def modificarPersona (anioActual : Int) (r : Respuesta) (e : Estado) : Resultado :=
  match modificarPersonaEnvio anioActual e with
  | (res, some personaModificado) =>
    ⟨modificarPersonaRespuesta personaModificado r res.estado, res.excepcion⟩
  | (res, none) => res

/-! ## Delete -/

/-- The function `eliminarPersona(id)`, run to completion on the answer `r` to its
`DELETE` request. -/
def eliminarPersona (id : Valor) (r : Respuesta) (e : Estado) : Estado :=
  let e := enviar (Peticion.delete id) (mostrarSpinner e)
  match r with
  | .exito _ =>
    let e := { e with personas := e.personas.filter (fun persona => !estrictamenteIgual persona.id id) }
    alert "Elemento eliminado correctamente."
      (ocultarFormularioABM (ocultarSpinner (actualizarTabla (Valor.cadena e.filtro) none e)))
  | .noOk =>
    alert "No se pudo realizar la operación" (ocultarFormularioABM (ocultarSpinner e))
  | .fallo mensaje =>
    alert mensaje (ocultarFormularioABM (ocultarSpinner e))

/-! ## Create -/

/-- The function `obtenerDatosDelFormulario`. -/
def obtenerDatosDelFormulario (e : Estado) : Datos :=
  { id := Valor.numero (parseInt e.formulario.id.data 0)
    nombre := e.formulario.nombre
    apellido := e.formulario.apellido
    fechaNacimiento := e.formulario.fechaNacimiento
    dni := (if esVerdadero (Valor.numero (parseInt e.formulario.dni.data 0))
      then parseInt e.formulario.dni.data 0 else Numero.entero 0)
    paisOrigen := e.formulario.paisOrigen
    tipoSeleccionado := e.formulario.tipo }

/-- Outcome of a `fetch` whose body is read with `response.json()`: a response with
`response.ok` and the parsed body (`none` when parsing fails), a response with another
status, or a rejected promise. -/
inductive RespuestaJson
  | exito (data : Option Elemento)
  | noOk
  | fallo
  deriving DecidableEq

/-- The function `crearNuevoPersona(datos)`, run to completion on the answer `r` to its
`POST` request; the second component is the value it resolves to (`none` for `null`). -/
def crearNuevoPersona (datos : Datos) (r : RespuestaJson) (e : Estado) :
    Estado × Option Persona :=
  let nuevoPersona : Option Persona :=
    if datos.tipoSeleccionado = "ciudadano" then
      some (Persona.ciudadano Valor.null (Valor.cadena datos.nombre)
        (Valor.cadena datos.apellido) (Valor.cadena datos.fechaNacimiento)
        (Valor.numero datos.dni))
    else if datos.tipoSeleccionado = "extranjero" then
      some (Persona.extranjero Valor.null (Valor.cadena datos.nombre)
        (Valor.cadena datos.apellido) (Valor.cadena datos.fechaNacimiento)
        (Valor.cadena datos.paisOrigen))
    else none
  let e := enviar (Peticion.post nuevoPersona) (mostrarSpinner e)
  let error : Estado × Option Persona :=
    (ocultarSpinner (alert "No se pudo realizar la operación. Por favor, intenta de nuevo." e),
      none)
  match r with
  | .exito (some data) =>
    match data.leer "id" with
    | .ok id =>
      if esVerdadero id then
        match nuevoPersona with
        | some p => (ocultarSpinner e, some (p.conId id))
        | none => error
      else error
    | .error _ => error
  | _ => error

/-- The function `agregarElemento`, run to completion; `rPost` answers the `POST` of
`crearNuevoPersona` and `rPut` the `PUT` of `modificarPersona`, if they are sent. -/
def agregarElemento (anioActual : Int) (rPost : RespuestaJson) (rPut : Respuesta)
    (e : Estado) : Resultado :=
  let datos := obtenerDatosDelFormulario e
  match validarDatosPersona anioActual datos with
  | .error f => ⟨e, some f⟩
  | .ok errorMensaje =>
    if esVerdadero (match errorMensaje with
        | some m => Valor.cadena m
        | none => Valor.null) then
      ⟨alert (errorMensaje.getD "") e, none⟩
    else if e.modoActual = "modificacion" ∧
        (findIndexPorId (Valor.numero (parseInt (Valor.aCadena datos.id).data 0)) e.personas).isSome
    then
      match modificarPersonaEnvio anioActual e with
      | (⟨e1, some f⟩, _) => ⟨e1, some f⟩
      | (⟨e1, none⟩, some personaModificado) =>
        ⟨modificarPersonaRespuesta personaModificado rPut
          (alert "Datos actualizados correctamente." e1), none⟩
      | (⟨e1, none⟩, none) => ⟨alert "Datos actualizados correctamente." e1, none⟩
    else
      let e :=
        if e.modoActual = "alta" then
          match crearNuevoPersona datos rPost e with
          | (e1, some nuevoPersona) =>
            actualizarTabla Valor.undefined none
              (alert "Agregado correctamente."
                { e1 with personas := e1.personas ++ [nuevoPersona] })
          | (e1, none) => e1
        else e
      ⟨limpiarFormularioABM (ocultarFormularioABM e), none⟩

/-- The click handler of the button `#aceptar`. -/
def aceptar (anioActual : Int) (rPost : RespuestaJson) (r : Respuesta) (e : Estado) :
    Resultado :=
  if e.modoActual = "alta" then agregarElemento anioActual rPost r e
  else if e.modoActual = "modificacion" then modificarPersona anioActual r e
  else if e.modoActual = "baja" then
    ⟨eliminarPersona (Valor.numero (parseInt e.formulario.id.data 0)) r e, none⟩
  else ⟨e, none⟩

/-! ## Vocabulary of the statements -/

/-- The decoding rule of a load, written out on an object: an `Extranjero` when the object
has `paisOrigen`, otherwise a `Ciudadano` when it has `dni`, otherwise nothing. -/
def reglaDeCarga (o : Objeto) : Option Persona :=
  if o.tiene "paisOrigen" then
    some (Persona.extranjero (o.leer "id") (o.leer "nombre") (o.leer "apellido")
      (o.leer "fechaNacimiento") (o.leer "paisOrigen"))
  else if o.tiene "dni" then
    some (Persona.ciudadano (o.leer "id") (o.leer "nombre") (o.leer "apellido")
      (o.leer "fechaNacimiento") (o.leer "dni"))
  else none

/-- Year part of an 8-digit date: the decimal value of characters 1 to 4. -/
def anioDe (D : String) : Int := valorDecimal (substring D.data 0 4)

/-- Month part of an 8-digit date: the decimal value of characters 5 and 6. -/
def mesDe (D : String) : Int := valorDecimal (substring D.data 4 6)

/-- Day part of an 8-digit date: the decimal value of characters 7 and 8. -/
def diaDe (D : String) : Int := valorDecimal (substring D.data 6 8)

/-- The string consists of exactly 8 decimal digits. -/
def esOchoDigitos (D : String) : Bool := D.data.length == 8 && D.data.all Char.isDigit

/-- A number that JSON cannot write: `NaN`, `Infinity` or `-Infinity`. -/
def Valor.esNoFinito : Valor → Bool
  | .numero .nan => true
  | .numero (.infinito _) => true
  | _ => false

/-- What a value becomes when written to JSON and read back: `NaN` and the infinities
become `null`. -/
def normalizarJson (v : Valor) : Valor :=
  if v.esNoFinito then Valor.null else v

/-- A record that JSON can carry: no field is `NaN` or infinite, and the field that tells
the variant (`dni` or `paisOrigen`) is not `undefined`. -/
def Persona.representable : Persona → Prop
  | .ciudadano id n a f dni =>
    id.esNoFinito = false ∧ n.esNoFinito = false ∧ a.esNoFinito = false ∧
      f.esNoFinito = false ∧ dni.esNoFinito = false ∧ dni ≠ Valor.undefined
  | .extranjero id n a f pais =>
    id.esNoFinito = false ∧ n.esNoFinito = false ∧ a.esNoFinito = false ∧
      f.esNoFinito = false ∧ pais.esNoFinito = false ∧ pais ≠ Valor.undefined

/-- A value is an integer number. -/
def Valor.esEntero : Valor → Bool
  | .numero (.entero _) => true
  | _ => false

/-- A value is a string. -/
def Valor.esCadena : Valor → Bool
  | .cadena _ => true
  | _ => false

/-- The `id` of a record of the data model, an integer that may be missing: `null` until
the server has assigned one. -/
def Valor.deId : Option Int → Valor
  | none => Valor.null
  | some n => Valor.ent n

/-- The sort key of the column `dni` as an integer: the `dni` of a `Ciudadano` holding an
integer, 0 for a record without one. -/
def claveDni : Persona → Int
  | .ciudadano _ _ _ _ (.numero (.entero n)) => n
  | _ => 0

/-- The `id` of a record as an integer, when it is one. -/
def idEntero (p : Persona) : Option Int :=
  match p.id with
  | .numero (.entero n) => some n
  | _ => none

/-- Two calls of `ordenarTabla(columna)` in a row: the rows shown after the first call and
the rows shown after the second. -/
def ordenarDosVeces (localeCompare : String → String → Int) (columna : String) (e : Estado) :
    Except Fallo (List Persona × List Persona) :=
  match ordenarTabla localeCompare columna e with
  | .error f => .error f
  | .ok e1 =>
    match ordenarTabla localeCompare columna e1 with
    | .error f => .error f
    | .ok e2 => .ok (e1.tabla, e2.tabla)

/-- A stand-in for `localeCompare` in examples whose sort keys are numbers. -/
def localeCompareNulo : String → String → Int := fun _ _ => 0

/-- The load response of the scenario: one object with `dni` and no `paisOrigen`. -/
def respuestaAna : Documento :=
  Documento.arreglo [Elemento.objeto [("id", Valor.ent 1), ("nombre", Valor.cadena "Ana"),
    ("apellido", Valor.cadena "Diaz"), ("fechaNacimiento", Valor.cadena "19900101"),
    ("dni", Valor.ent 123)]]

/-- An object that has both `dni` and `paisOrigen`. -/
def objetoConAmbos : Objeto :=
  [("id", Valor.ent 2), ("nombre", Valor.cadena "Luz"), ("apellido", Valor.cadena "Paz"),
    ("fechaNacimiento", Valor.cadena "19851231"), ("dni", Valor.ent 456),
    ("paisOrigen", Valor.cadena "Chile")]

/-- The decoding rule of a load on an element of the response array: `reglaDeCarga` on an
object, nothing on a number, a string or a boolean (they have neither field). -/
def reglaDeCargaElemento : Elemento → Option Persona
  | .objeto o => reglaDeCarga o
  | .primitivo _ => none

/-- The element is `null` (or `undefined`, which JSON cannot hold): reading a property of
it throws. -/
def Elemento.esNulo : Elemento → Bool
  | .primitivo .null => true
  | .primitivo .undefined => true
  | _ => false

/-- The element is an object that has at least one of the fields `dni` and `paisOrigen`. -/
def Elemento.tieneCampoDeVariante : Elemento → Bool
  | .objeto o => o.tiene "dni" || o.tiene "paisOrigen"
  | .primitivo _ => false

/-- A load response whose first element is `null` and whose second element is an object
with `dni`. -/
def respuestaConNull : List Elemento :=
  [Elemento.primitivo Valor.null,
    Elemento.objeto [("id", Valor.ent 7), ("nombre", Valor.cadena "Ana"),
      ("apellido", Valor.cadena "Diaz"), ("fechaNacimiento", Valor.cadena "19900101"),
      ("dni", Valor.ent 5)]]

/-- A load response without `null`: a number, an object with both fields, an object with
neither, and an object with `dni` alone. -/
def respuestaVariada : List Elemento :=
  [Elemento.primitivo (Valor.ent 5), Elemento.objeto objetoConAmbos,
    Elemento.objeto [("id", Valor.ent 3), ("nombre", Valor.cadena "Eva")],
    Elemento.objeto [("id", Valor.ent 7), ("nombre", Valor.cadena "Ana"),
      ("apellido", Valor.cadena "Diaz"), ("fechaNacimiento", Valor.cadena "19900101"),
      ("dni", Valor.ent 5)]]

/-- Lexicographic comparison of two lists of characters by character code: negative,
zero or positive. -/
def compararCodigos : List Char → List Char → Int
  | [], [] => 0
  | [], _ :: _ => -1
  | _ :: _, [] => 1
  | a :: resto, b :: resto2 =>
    if a.toNat < b.toNat then -1
    else if b.toNat < a.toNat then 1
    else compararCodigos resto resto2

/-- The comparison of two strings character by character, by character code: what
`localeCompare` gives on strings of decimal digits. -/
def localeCompareDigitos (a b : String) : Int :=
  compararCodigos a.data b.data

/-- A load response in which the server sends `dni` as strings: `"9"` and `"10"`. -/
def respuestaDniCadena : List Elemento :=
  [Elemento.objeto [("id", Valor.ent 1), ("nombre", Valor.cadena "Ana"),
      ("apellido", Valor.cadena "Diaz"), ("fechaNacimiento", Valor.cadena "19900101"),
      ("dni", Valor.cadena "9")],
    Elemento.objeto [("id", Valor.ent 2), ("nombre", Valor.cadena "Bea"),
      ("apellido", Valor.cadena "Gil"), ("fechaNacimiento", Valor.cadena "19910202"),
      ("dni", Valor.cadena "10")]]

/-- The `id` that the body of a successful answer to the `POST` carries: the member `id`
of the parsed body, `undefined` when the body has none, is `null` or cannot be parsed. -/
def idRecibido : Option Elemento → Valor
  | some data =>
    match data.leer "id" with
    | .ok v => v
    | .error _ => Valor.undefined
  | none => Valor.undefined

/-- A form record of a foreigner with valid name, surname, birth date and country. -/
def datosExtranjeroValido : Datos :=
  { id := Valor.undefined, nombre := "Ana", apellido := "Diaz", fechaNacimiento := "19900101",
    dni := Numero.entero 0, paisOrigen := "Chile", tipoSeleccionado := "extranjero" }

/-- Two records with the same `id`. -/
def personasMismoId : List Persona :=
  [Persona.ciudadano (Valor.ent 1) (Valor.cadena "Ana") (Valor.cadena "Diaz")
      (Valor.cadena "19900101") (Valor.ent 123),
    Persona.ciudadano (Valor.ent 1) (Valor.cadena "Bea") (Valor.cadena "Gil")
      (Valor.cadena "19910202") (Valor.ent 456)]

/-- A store that mixes both variants, with different ids, filter `todos`. -/
def estadoMixto : Estado :=
  { Estado.inicial with
    personas := [Persona.ciudadano (Valor.ent 3) (Valor.cadena "Ana") (Valor.cadena "Diaz")
        (Valor.cadena "19900101") (Valor.ent 123),
      Persona.extranjero (Valor.ent 1) (Valor.cadena "Luz") (Valor.cadena "Paz")
        (Valor.cadena "19851231") (Valor.cadena "Chile"),
      Persona.ciudadano (Valor.ent 2) (Valor.cadena "Bea") (Valor.cadena "Gil")
        (Valor.cadena "19910202") (Valor.ent (-5))]
    filtro := "todos" }

/-- A store holding one `Extranjero`, with the form filled in to change its country. -/
def estadoEdicionExtranjero : Estado :=
  { Estado.inicial with
    personas := [Persona.extranjero (Valor.ent 1) (Valor.cadena "Ana") (Valor.cadena "Diaz")
      (Valor.cadena "19900101") (Valor.cadena "Chile")]
    modoActual := "modificacion"
    formulario := ⟨"1", "Ana", "Diaz", "19900101", "", "Peru", "extranjero"⟩
    formularioVisible := true }

/-! ## Sequences of operations on the store -/

/-- One operation on the store: the load, or a press of the button `#aceptar` with the form
opened in one of its three modes and filled in as `f`, together with the answer of the
server to the request it sends.  -/
inductive Operacion
  | cargar (status : Nat) (cuerpo : Documento)
  | crear (f : Formulario) (rPost : RespuestaJson)
  | modificar (f : Formulario) (r : Respuesta)
  | eliminar (f : Formulario) (r : Respuesta)

/-- The state after one operation (the state reached when an exception ends the handler,
if one does). -/
def ejecutar (anioActual : Int) (op : Operacion) (e : Estado) : Estado :=
  match op with
  | .cargar status cuerpo => cargarDatos status cuerpo e
  | .crear f rPost =>
    (aceptar anioActual rPost (Respuesta.fallo "")
      { e with modoActual := "alta", formulario := f }).estado
  | .modificar f r =>
    (aceptar anioActual RespuestaJson.fallo r
      { e with modoActual := "modificacion", formulario := f }).estado
  | .eliminar f r =>
    (aceptar anioActual RespuestaJson.fallo r
      { e with modoActual := "baja", formulario := f }).estado

/-- No two records of the list have the same id, `null` apart. -/
def sinIdsRepetidos (l : List Persona) : Prop :=
  l.Pairwise (fun a b => a.id = b.id → a.id = Valor.null)

/-- The server does not send an id twice: the records decoded from a load response have no
repeated id, and the id in the answer to a create request is not the id of a record of
the store.  Nothing is asked of the answers to update and delete requests. -/
def servidorSinRepetir (op : Operacion) (e : Estado) : Prop :=
  match op with
  | .cargar _ (.arreglo data) =>
    ∀ decodificados, decodificarTodos data = .ok decodificados →
      sinIdsRepetidos (decodificados.filterMap id)
  | .crear _ (.exito (some data)) =>
    ∀ v, data.leer "id" = .ok v → ∀ p ∈ e.personas, p.id ≠ v
  | _ => True

/-- The states reached from the state of a freshly evaluated script by operations in which
the server does not send an id twice. -/
inductive Alcanzable (anioActual : Int) : Estado → Prop
  | inicial : Alcanzable anioActual Estado.inicial
  | paso (op : Operacion) (e : Estado) : Alcanzable anioActual e → servidorSinRepetir op e →
      Alcanzable anioActual (ejecutar anioActual op e)

/-- A load answered with two objects of ids 1 and 2. -/
def operacionCargaDosIds : Operacion :=
  Operacion.cargar 200 (Documento.arreglo [
    Elemento.objeto [("id", Valor.ent 1), ("nombre", Valor.cadena "Ana"),
      ("apellido", Valor.cadena "Diaz"), ("fechaNacimiento", Valor.cadena "19900101"),
      ("dni", Valor.ent 123)],
    Elemento.objeto [("id", Valor.ent 2), ("nombre", Valor.cadena "Luz"),
      ("apellido", Valor.cadena "Paz"), ("fechaNacimiento", Valor.cadena "19851231"),
      ("paisOrigen", Valor.cadena "Chile")]])

/-- The creation of a `Ciudadano`, answered with the id 3. -/
def operacionAltaBea : Operacion :=
  Operacion.crear ⟨"", "Bea", "Gil", "19910202", "456", "", "ciudadano"⟩
    (RespuestaJson.exito (some (Elemento.objeto [("id", Valor.ent 3)])))

/-- The update of the record of id 1, answered successfully. -/
def operacionModificaAna : Operacion :=
  Operacion.modificar ⟨"1", "Ana Maria", "Diaz", "19900101", "124", "", "ciudadano"⟩
    (Respuesta.exito "OK")

/-- The deletion of the record of id 2, answered successfully. -/
def operacionBajaLuz : Operacion :=
  Operacion.eliminar ⟨"2", "Luz", "Paz", "19851231", "", "Chile", "extranjero"⟩
    (Respuesta.exito "")

/-- The state after the load, the creation, the update and the deletion above. -/
def estadoTrasCuatroOperaciones : Estado :=
  ejecutar 2024 operacionBajaLuz (ejecutar 2024 operacionModificaAna
    (ejecutar 2024 operacionAltaBea (ejecutar 2024 operacionCargaDosIds Estado.inicial)))

/-- A load response with two objects of id 1. -/
def respuestaRepetida : Documento :=
  Documento.arreglo [
    Elemento.objeto [("id", Valor.ent 1), ("nombre", Valor.cadena "Ana"),
      ("apellido", Valor.cadena "Diaz"), ("fechaNacimiento", Valor.cadena "19900101"),
      ("dni", Valor.ent 123)],
    Elemento.objeto [("id", Valor.ent 1), ("nombre", Valor.cadena "Luz"),
      ("apellido", Valor.cadena "Paz"), ("fechaNacimiento", Valor.cadena "19851231"),
      ("paisOrigen", Valor.cadena "Chile")]]

/-- A store holding one `Extranjero`, the filter set to `ciudadano`, and the form opened in
create mode and filled in with a valid `Ciudadano`. -/
def estadoAlta : Estado :=
  { Estado.inicial with
    personas := [Persona.extranjero (Valor.ent 1) (Valor.cadena "Luz") (Valor.cadena "Paz")
      (Valor.cadena "19851231") (Valor.cadena "Chile")]
    modoActual := "alta"
    filtro := "ciudadano"
    formulario := ⟨"", "Bea", "Gil", "19910202", "456", "", "ciudadano"⟩
    formularioVisible := true }

/-! ## Birth date and form validation -/

/-- C1 (the code at the failing input): the string `19901.01` has 8 characters that are
not all decimal digits, it converts to a number, and `validarFechaNacimiento` returns
`null` for it (year 1990, month `parseInt("1.")` = 1, day 1), where the claim requires an
error message; the date `20230230` of the scenario is rejected with 28 as the last day. -/
theorem C1_fecha_con_punto_aceptada :
    "19901.01".data.all Char.isDigit = false ∧ longitudJS "19901.01".data = 8 ∧
    isNaNCadena "19901.01" = false ∧
    validarFechaNacimiento 2024 "19901.01" = none ∧
    validarFechaNacimiento 2024 "20230230" =
      some "El día debe estar entre 01 y 28 para el mes 2." := by
  decide

/-- The code of a decimal digit lies between 48 and 57. -/
theorem toNat_of_isDigit (c : Char) (h : c.isDigit = true) : 48 ≤ c.toNat ∧ c.toNat ≤ 57 := by
  simp only [Char.isDigit, Bool.and_eq_true, decide_eq_true_eq] at h
  have h1 : (48 : UInt32).toNat ≤ c.val.toNat := h.1
  have h2 : c.val.toNat ≤ (57 : UInt32).toNat := h.2
  exact ⟨h1, h2⟩

/-- A decimal digit is not white space. -/
theorem esEspacioJS_of_isDigit (c : Char) (h : c.isDigit = true) : esEspacioJS c = false := by
  have := toNat_of_isDigit c h
  simp only [esEspacioJS]
  simp
  omega

/-- A decimal digit differs from every character that is not one. -/
theorem ne_of_isDigit (c d : Char) (h : c.isDigit = true) (hd : d.isDigit = false) : c ≠ d := by
  intro hc
  rw [hc, hd] at h
  cases h

/-- Digit value of a decimal digit. -/
theorem valorDeDigito_of_isDigit (c : Char) (h : c.isDigit = true) :
    valorDeDigito c = some (c.toNat - 48) := by
  simp [valorDeDigito, h]

/-- A decimal digit is a digit in radix 10. -/
theorem esDigitoEnBase_of_isDigit (c : Char) (h : c.isDigit = true) :
    esDigitoEnBase 10 c = true := by
  have := toNat_of_isDigit c h
  simp [esDigitoEnBase, valorDeDigito_of_isDigit c h]
  omega

/-- On decimal digits the accumulation of `parseInt` is the decimal value. -/
theorem foldl_valorDeDigito (ds : List Char) (h : ∀ c ∈ ds, c.isDigit = true) (acc : Nat) :
    ds.foldl (fun acc c => acc * 10 + (valorDeDigito c).getD 0) acc =
      ds.foldl (fun acc c => acc * 10 + (c.toNat - 48)) acc := by
  induction ds generalizing acc with
  | nil => rfl
  | cons c cs ih =>
    simp only [List.foldl_cons, valorDeDigito_of_isDigit c (h c (List.mem_cons_self _ _)),
      Option.getD_some]
    exact ih (fun d hd => h d (List.mem_cons_of_mem _ hd)) _

/-- The constant `dosElevadoA1024` is 2^1024, and the bound of `aDoble` is 2^53. -/
theorem dosElevadoA1024_eq : dosElevadoA1024 = 2 ^ 1024 ∧ 9007199254740992 = 2 ^ 53 := by
  unfold dosElevadoA1024
  constructor <;> norm_num

/-- The strings `9007199254740993` (2^53 + 1) and `9007199254740995` lie half way between
two doubles and are rounded by `parseInt` to the one with an even significand; the sign is
applied after the rounding. -/
theorem parseInt_redondea :
    parseInt "9007199254740993".data 0 = Numero.entero 9007199254740992 ∧
    parseInt "9007199254740995".data 0 = Numero.entero 9007199254740996 ∧
    parseInt "-18014398509481987".data 0 = Numero.entero (-18014398509481988) := by
  decide

/-- Below 2^53 the conversion to a double changes nothing. -/
theorem aDoble_exacto (combustible n : Nat) (h : n < 9007199254740992) :
    aDoble combustible n = Numero.entero n := by
  unfold aDoble
  rw [if_pos h]

/-- The value accumulated from decimal digits stays below the power of ten of their
number. -/
theorem foldl_digitos_lt (ds : List Char) (h : ∀ c ∈ ds, c.isDigit = true) (acc : Nat) :
    ds.foldl (fun acc c => acc * 10 + (c.toNat - 48)) acc + 1 ≤ (acc + 1) * 10 ^ ds.length := by
  induction ds generalizing acc with
  | nil => simp
  | cons c cs ih =>
    have hc := toNat_of_isDigit c (h c (List.mem_cons_self _ _))
    have h1 := ih (fun d hd => h d (List.mem_cons_of_mem _ hd)) (acc * 10 + (c.toNat - 48))
    have h2 : acc * 10 + (c.toNat - 48) + 1 ≤ (acc + 1) * 10 := by omega
    have h3 : (acc * 10 + (c.toNat - 48) + 1) * 10 ^ cs.length ≤
        (acc + 1) * 10 * 10 ^ cs.length := Nat.mul_le_mul_right _ h2
    simp only [List.foldl_cons, List.length_cons]
    calc List.foldl (fun acc c => acc * 10 + (c.toNat - 48)) (acc * 10 + (c.toNat - 48)) cs + 1
        ≤ (acc * 10 + (c.toNat - 48) + 1) * 10 ^ cs.length := h1
      _ ≤ (acc + 1) * 10 * 10 ^ cs.length := h3
      _ = (acc + 1) * 10 ^ (cs.length + 1) := by rw [Nat.pow_succ]; ring

/-- A string of at most 15 decimal digits spells an integer below 2^53. -/
theorem valorDecimal_lt (ds : List Char) (h : ∀ c ∈ ds, c.isDigit = true)
    (hlen : ds.length ≤ 15) : valorDecimal ds < 9007199254740992 := by
  have h1 := foldl_digitos_lt ds h 0
  have h2 : 10 ^ ds.length ≤ 10 ^ 15 := Nat.pow_le_pow_right (by decide) hlen
  have h3 : (10 : Nat) ^ 15 = 1000000000000000 := by norm_num
  unfold valorDecimal
  omega

/-- On a non-empty string of at most 15 decimal digits `parseInt(s, 10)` is its decimal
value. -/
theorem parseInt_digitos (ds : List Char) (hne : ds ≠ [])
    (h : ∀ c ∈ ds, c.isDigit = true) (hlen : ds.length ≤ 15) :
    parseInt ds 10 = Numero.entero (valorDecimal ds) := by
  have hv := valorDecimal_lt ds h hlen
  obtain ⟨c, cs, rfl⟩ := List.exists_cons_of_ne_nil hne
  have hc := h c (List.mem_cons_self _ _)
  have hsp : recortarInicio (c :: cs) = c :: cs := by
    simp [recortarInicio, List.dropWhile_cons, esEspacioJS_of_isDigit c hc]
  have hmas : c ≠ '+' := ne_of_isDigit c '+' hc (by decide)
  have hmenos : c ≠ '-' := ne_of_isDigit c '-' hc (by decide)
  have htw : (c :: cs).takeWhile (esDigitoEnBase 10) = c :: cs := by
    rw [List.takeWhile_eq_self_iff]
    intro x hx
    exact esDigitoEnBase_of_isDigit x (h x hx)
  unfold parseInt
  rw [hsp]
  have e1 : (match c :: cs with
    | '-' :: _ => true
    | _ => false) = false := by
    split
    · rename_i heq
      exact absurd (List.cons.inj heq).1 hmenos
    · rfl
  have e2 : (match c :: cs with
    | '+' :: r => r
    | '-' :: r => r
    | _ => c :: cs) = c :: cs := by
    split
    · rename_i heq
      exact absurd (List.cons.inj heq).1 hmas
    · rename_i heq
      exact absurd (List.cons.inj heq).1 hmenos
    · rfl
  have hfold : List.foldl (fun acc c => acc * 10 + (valorDeDigito c).getD 0) 0 (c :: cs) =
      valorDecimal (c :: cs) := foldl_valorDeDigito (c :: cs) h 0
  simp only [e1, e2]
  simp [htw, hfold, aDoble_exacto _ _ hv, Numero.conSigno]

/-- Nothing is removed from the start of a string without white space. -/
theorem recortarInicio_eq_self (l : List Char) (h : ∀ c ∈ l, esEspacioJS c = false) :
    recortarInicio l = l := by
  cases l with
  | nil => rfl
  | cons c cs => simp [recortarInicio, List.dropWhile_cons, h c (List.mem_cons_self _ _)]

/-- The method `trim` leaves a string without white space as it is. -/
theorem recortar_eq_self (l : List Char) (h : ∀ c ∈ l, esEspacioJS c = false) :
    recortar l = l := by
  unfold recortar
  rw [recortarInicio_eq_self l h, recortarInicio_eq_self l.reverse
    (fun c hc => h c (List.mem_reverse.mp hc)), List.reverse_reverse]

/-- A non-empty string of decimal digits converts to a number. -/
theorem esLiteralNumerico_digitos (ds : List Char) (hne : ds ≠ [])
    (h : ∀ c ∈ ds, c.isDigit = true) : esLiteralNumerico ds = true := by
  have hr : recortar ds = ds :=
    recortar_eq_self ds (fun c hc => esEspacioJS_of_isDigit c (h c hc))
  obtain ⟨c, cs, rfl⟩ := List.exists_cons_of_ne_nil hne
  have hc := h c (List.mem_cons_self _ _)
  have hdw : (c :: cs).dropWhile Char.isDigit = [] := by
    rw [List.dropWhile_eq_nil_iff]
    exact h
  have htw : (c :: cs).takeWhile Char.isDigit = c :: cs := by
    rw [List.takeWhile_eq_self_iff]
    exact h
  have hsin : esDecimalSinSigno (c :: cs) = true := by
    unfold esDecimalSinSigno
    rw [hdw, htw]
    simp [esExponenteOpcional]
  have hcon : esDecimalConSigno (c :: cs) = true := by
    unfold esDecimalConSigno
    split
    · rename_i heq
      exact absurd (List.cons.inj heq).1 (ne_of_isDigit c '+' hc (by decide))
    · rename_i heq
      exact absurd (List.cons.inj heq).1 (ne_of_isDigit c '-' hc (by decide))
    · exact hsin
  unfold esLiteralNumerico
  rw [hr, hcon]
  simp

/-- A string of decimal digits has one code unit per character. -/
theorem longitudJS_digitos (ds : List Char) (h : ∀ c ∈ ds, c.isDigit = true) :
    longitudJS ds = ds.length := by
  induction ds with
  | nil => rfl
  | cons c cs ih =>
    have hc := toNat_of_isDigit c (h c (List.mem_cons_self _ _))
    have hlt : c.toNat < 0x10000 := by omega
    have := ih (fun d hd => h d (List.mem_cons_of_mem _ hd))
    unfold longitudJS at this ⊢
    simp only [List.map_cons, List.sum_cons, hlt, if_true, List.length_cons, this]
    omega

/-- On a string of exactly 8 decimal digits `validarFechaNacimiento` returns `null` exactly
when the year lies in [1900, current year], the month in [1, 12] and the day in
[1, days of that month in that year]. -/
theorem validarFechaNacimiento_ocho_digitos (anioActual : Int) (D : String)
    (h : esOchoDigitos D = true) :
    validarFechaNacimiento anioActual D = none ↔
      (1900 ≤ anioDe D ∧ anioDe D ≤ anioActual) ∧ (1 ≤ mesDe D ∧ mesDe D ≤ 12) ∧
      (1 ≤ diaDe D ∧ diaDe D ≤ diasDelMes (anioDe D) (mesDe D - 1)) := by
  simp only [esOchoDigitos, Bool.and_eq_true, beq_iff_eq, List.all_eq_true] at h
  obtain ⟨hlen, hdig⟩ := h
  have hne : D.data ≠ [] := by
    intro h0
    rw [h0] at hlen
    cases hlen
  have hsub : ∀ i j, ∀ c ∈ substring D.data i j, c.isDigit = true := fun i j c hc =>
    hdig c (List.mem_of_mem_drop (List.mem_of_mem_take hc))
  have hsubne : ∀ i j, i < j → j ≤ 8 → substring D.data i j ≠ [] := by
    intro i j hij hj h0
    have hl : (substring D.data i j).length = 0 := by rw [h0]; rfl
    simp only [substring, List.length_take, List.length_drop, hlen] at hl
    omega
  have hsublen : ∀ i j, (substring D.data i j).length ≤ 15 := by
    intro i j
    simp only [substring, List.length_take, List.length_drop, hlen]
    omega
  have pa := parseInt_digitos _ (hsubne 0 4 (by omega) (by omega)) (hsub 0 4) (hsublen 0 4)
  have pm := parseInt_digitos _ (hsubne 4 6 (by omega) (by omega)) (hsub 4 6) (hsublen 4 6)
  have pd := parseInt_digitos _ (hsubne 6 8 (by omega) (by omega)) (hsub 6 8) (hsublen 6 8)
  have hnum : isNaNCadena D = false := by
    simp [isNaNCadena, esLiteralNumerico_digitos D.data hne hdig]
  have hl8 : longitudJS D.data = 8 := by rw [longitudJS_digitos D.data hdig, hlen]
  unfold validarFechaNacimiento
  simp only [hnum, hl8, pa, pm, pd, Bool.false_eq_true, if_false, ne_eq, not_true_eq_false]
  show (if _ then _ else _) = none ↔ (1900 ≤ anioDe D ∧ anioDe D ≤ anioActual) ∧ _
  simp only [Numero.menor, Numero.mayor, Bool.or_eq_true, decide_eq_true_eq]
  have ha : ((valorDecimal (substring D.data 0 4) : Nat) : Int) = anioDe D := rfl
  have hm : ((valorDecimal (substring D.data 4 6) : Nat) : Int) = mesDe D := rfl
  have hd : ((valorDecimal (substring D.data 6 8) : Nat) : Int) = diaDe D := rfl
  rw [ha, hm, hd]
  by_cases c1 : anioDe D < 1900 ∨ anioActual < anioDe D
  · rw [if_pos c1]
    simp
    omega
  · rw [if_neg c1]
    by_cases c2 : mesDe D < 1 ∨ 12 < mesDe D
    · rw [if_pos c2]
      simp
      omega
    · rw [if_neg c2]
      have hu : ultimoDia (Numero.entero (anioDe D)) (Numero.entero (mesDe D)) =
          Numero.entero (diasDelMes (anioDe D) (mesDe D - 1)) := by
        have h99 : ¬ (0 ≤ anioDe D ∧ anioDe D ≤ 99) := by omega
        have hq : (mesDe D - 1) / 12 = 0 := by omega
        have hr : (mesDe D - 1) % 12 = mesDe D - 1 := by omega
        simp only [ultimoDia, h99, if_false, hq, hr, add_zero]
      rw [hu]
      simp only [Numero.menor, decide_eq_true_eq]
      by_cases c3 : diaDe D < 1 ∨ diasDelMes (anioDe D) (mesDe D - 1) < diaDe D
      · rw [if_pos c3]
        simp
        omega
      · rw [if_neg c3]
        simp
        omega

/-- Appending to a non-empty string gives a non-empty string. -/
theorem append_ne_vacia (a b : String) (h : a ≠ "") : a ++ b ≠ "" := by
  intro heq
  apply h
  have h2 := congrArg String.length heq
  rw [String.length_append] at h2
  have h3 : a.length = 0 := by
    have : ("" : String).length = 0 := rfl
    omega
  cases a with
  | mk l =>
    cases l with
    | nil => rfl
    | cons c cs => simp [String.length] at h3

/-- Every message returned by `validarFechaNacimiento` is non-empty. -/
theorem validarFechaNacimiento_mensaje_no_vacio (anioActual : Int) (D m : String)
    (h : validarFechaNacimiento anioActual D = some m) : m ≠ "" := by
  unfold validarFechaNacimiento at h
  split at h
  · cases h
    decide
  · dsimp only at h
    split at h
    · cases h
      decide
    · split at h
      · cases h
        decide
      · split at h
        · cases h
          decide
        · split at h
          · cases h
            rw [String.append_assoc, String.append_assoc, String.append_assoc]
            exact append_ne_vacia _ _ (by decide)
          · cases h

/-- A string that does not convert to a number, or whose length is not 8, is rejected with a
non-empty message. -/
theorem validarFechaNacimiento_rechaza (anioActual : Int) (D : String)
    (h : isNaNCadena D = true ∨ longitudJS D.data ≠ 8) :
    ∃ m, validarFechaNacimiento anioActual D = some m ∧ m ≠ "" := by
  have hs : ∃ m, validarFechaNacimiento anioActual D = some m := by
    unfold validarFechaNacimiento
    by_cases h1 : isNaNCadena D = true
    · exact ⟨_, by rw [if_pos h1]⟩
    · have h2 : longitudJS D.data ≠ 8 := h.resolve_left h1
      exact ⟨_, by rw [if_neg h1, if_pos h2]⟩
  obtain ⟨m, hm⟩ := hs
  exact ⟨m, hm, validarFechaNacimiento_mensaje_no_vacio anioActual D m hm⟩

/-- The order of characters is the order of their codes. -/
theorem toNat_le_of_le (c d : Char) (h : c ≤ d) : c.toNat ≤ d.toNat := h

/-- White space characters take one UTF-16 code unit. -/
theorem bmp_of_esEspacioJS (c : Char) (h : esEspacioJS c = true) : c.toNat < 0x10000 := by
  simp only [esEspacioJS, Bool.or_eq_true, beq_iff_eq, Bool.and_eq_true,
    decide_eq_true_eq] at h
  omega

/-- An element of a list survives `dropWhile p` or satisfies `p`. -/
theorem mem_dropWhile_or {α : Type} (p : α → Bool) (l : List α) (c : α) (h : c ∈ l) :
    c ∈ l.dropWhile p ∨ p c = true := by
  rw [← List.takeWhile_append_dropWhile p l] at h
  rcases List.mem_append.mp h with h1 | h2
  · exact Or.inr (List.mem_takeWhile_imp h1)
  · exact Or.inl h2

/-- A character of a string survives `trim` or is white space. -/
theorem mem_recortar_or (s : List Char) (c : Char) (h : c ∈ s) :
    c ∈ recortar s ∨ esEspacioJS c = true := by
  unfold recortar recortarInicio
  rcases mem_dropWhile_or esEspacioJS s c h with h1 | h2
  · rcases mem_dropWhile_or esEspacioJS _ c (List.mem_reverse.mpr h1) with h3 | h4
    · exact Or.inl (List.mem_reverse.mpr h3)
    · exact Or.inr h4
  · exact Or.inr h2

/-- Decimal digits are ASCII. -/
theorem ascii_of_isDigit (c : Char) (h : c.isDigit = true) : c.toNat < 128 := by
  have := toNat_of_isDigit c h
  omega

/-- Hexadecimal digits are ASCII. -/
theorem ascii_of_esDigitoHex (c : Char) (h : esDigitoHex c = true) : c.toNat < 128 := by
  simp only [esDigitoHex, Bool.or_eq_true, Bool.and_eq_true, decide_eq_true_eq] at h
  rcases h with (h | h) | h
  · exact ascii_of_isDigit c h
  · have := toNat_le_of_le _ _ h.2
    have h2 : 'f'.toNat = 102 := rfl
    omega
  · have := toNat_le_of_le _ _ h.2
    have h2 : 'F'.toNat = 70 := rfl
    omega

/-- A `SignedInteger` is made of ASCII characters. -/
theorem ascii_of_esEnteroConSigno (s : List Char) (h : esEnteroConSigno s = true) :
    ∀ c ∈ s, c.toNat < 128 := by
  unfold esEnteroConSigno at h
  split at h
  · simp only [Bool.and_eq_true, List.all_eq_true] at h
    intro c hc
    rcases List.mem_cons.mp hc with rfl | hc
    · decide
    · exact ascii_of_isDigit c (h.2 c hc)
  · simp only [Bool.and_eq_true, List.all_eq_true] at h
    intro c hc
    rcases List.mem_cons.mp hc with rfl | hc
    · decide
    · exact ascii_of_isDigit c (h.2 c hc)
  · simp only [Bool.and_eq_true, List.all_eq_true] at h
    intro c hc
    exact ascii_of_isDigit c (h.2 c hc)

/-- An exponent part is made of ASCII characters. -/
theorem ascii_of_esExponenteOpcional (s : List Char) (h : esExponenteOpcional s = true) :
    ∀ c ∈ s, c.toNat < 128 := by
  unfold esExponenteOpcional at h
  split at h
  · intro c hc
    cases hc
  · rename_i c r
    simp only [Bool.and_eq_true, Bool.or_eq_true, beq_iff_eq] at h
    intro d hd
    rcases List.mem_cons.mp hd with rfl | hd
    · rcases h.1 with rfl | rfl <;> decide
    · exact ascii_of_esEnteroConSigno r h.2 d hd

/-- An unsigned decimal literal is made of ASCII characters. -/
theorem ascii_of_esDecimalSinSigno (s : List Char) (h : esDecimalSinSigno s = true) :
    ∀ c ∈ s, c.toNat < 128 := by
  unfold esDecimalSinSigno at h
  rw [Bool.or_eq_true] at h
  rcases h with h | h
  · have hs : s = "Infinity".data := by simpa using h
    rw [hs]
    decide
  · intro c hc
    rw [← List.takeWhile_append_dropWhile Char.isDigit s] at hc
    rcases List.mem_append.mp hc with h1 | h2
    · exact ascii_of_isDigit c (List.mem_takeWhile_imp h1)
    · split at h
      · rename_i r heq
        rw [heq] at h2
        simp only [Bool.and_eq_true] at h
        rcases List.mem_cons.mp h2 with rfl | h3
        · decide
        · rw [← List.takeWhile_append_dropWhile Char.isDigit r] at h3
          rcases List.mem_append.mp h3 with h4 | h5
          · exact ascii_of_isDigit c (List.mem_takeWhile_imp h4)
          · exact ascii_of_esExponenteOpcional _ h.2 c h5
      · simp only [Bool.and_eq_true] at h
        exact ascii_of_esExponenteOpcional _ h.2 c h2

/-- A decimal literal is made of ASCII characters. -/
theorem ascii_of_esDecimalConSigno (s : List Char) (h : esDecimalConSigno s = true) :
    ∀ c ∈ s, c.toNat < 128 := by
  unfold esDecimalConSigno at h
  split at h
  · intro c hc
    rcases List.mem_cons.mp hc with rfl | hc
    · decide
    · exact ascii_of_esDecimalSinSigno _ h c hc
  · intro c hc
    rcases List.mem_cons.mp hc with rfl | hc
    · decide
    · exact ascii_of_esDecimalSinSigno _ h c hc
  · exact ascii_of_esDecimalSinSigno _ h

/-- A binary, octal or hexadecimal literal is made of ASCII characters. -/
theorem ascii_of_esEnteroNoDecimal (s : List Char) (h : esEnteroNoDecimal s = true) :
    ∀ c ∈ s, c.toNat < 128 := by
  unfold esEnteroNoDecimal at h
  split at h
  all_goals first
    | cases h
    | (simp only [Bool.and_eq_true, List.all_eq_true, Bool.or_eq_true, beq_iff_eq,
        decide_eq_true_eq] at h
       intro c hc
       rcases List.mem_cons.mp hc with rfl | hc
       · decide
       rcases List.mem_cons.mp hc with rfl | hc
       · decide
       first
         | exact ascii_of_esDigitoHex c (h.2 c hc)
         | (rcases h.2 c hc with rfl | rfl <;> decide)
         | (have h7 := toNat_le_of_le _ _ (h.2 c hc).2
            have h8 : '7'.toNat = 55 := rfl
            omega))

/-- A string that converts to a number is made of characters that take one UTF-16 code
unit each, so that `substring` cuts it between characters. -/
theorem bmp_of_esLiteralNumerico (s : List Char) (h : esLiteralNumerico s = true) :
    ∀ c ∈ s, c.toNat < 0x10000 := by
  intro c hc
  rcases mem_recortar_or s c hc with h1 | h2
  · unfold esLiteralNumerico at h
    simp only [Bool.or_eq_true] at h
    rcases h with (h | h) | h
    · have : recortar s = [] := by simpa using h
      rw [this] at h1
      cases h1
    · have := ascii_of_esEnteroNoDecimal _ h c h1
      omega
    · have := ascii_of_esDecimalConSigno _ h c h1
      omega
  · exact bmp_of_esEspacioJS c h2

/-- The `length` of a string that converts to a number is its number of characters. -/
theorem longitudJS_of_esLiteralNumerico (s : List Char) (h : esLiteralNumerico s = true) :
    longitudJS s = s.length := by
  have hb := bmp_of_esLiteralNumerico s h
  clear h
  induction s with
  | nil => rfl
  | cons c cs ih =>
    have hlt := hb c (List.mem_cons_self _ _)
    have := ih (fun d hd => hb d (List.mem_cons_of_mem _ hd))
    unfold longitudJS at this ⊢
    simp only [List.map_cons, List.sum_cons, hlt, if_true, List.length_cons, this]
    omega

/-- C2 (the code at the failing input): a foreigner with valid name, surname, birth date
and a non-blank origin country passes `validarDatosExtranjero`, which nothing calls, and
is rejected by `validarDatosPersona` with the message for an invalid type. -/
theorem C2_extranjero_valido_rechazado :
    esBlanco datosExtranjeroValido.nombre = false ∧
    esBlanco datosExtranjeroValido.apellido = false ∧
    validarFechaNacimiento 2024 datosExtranjeroValido.fechaNacimiento = none ∧
    validarDatosExtranjero datosExtranjeroValido = none ∧
    validarDatosPersona 2024 datosExtranjeroValido =
      .ok (some "Tipo seleccionado no válido. Por favor, seleccione 'ciudadano' o 'camion'.") := by
  refine ⟨by decide, by decide, by decide, by decide, ?_⟩
  rfl

/-- Acceptance by `validarDatosPersona`, characterised: name and surname are not blank,
the birth date is accepted, the type is `ciudadano` and `dni` is a number above 0 (an
integer, or `Infinity` for a `dni` control of more than 308 digits). -/
theorem validarDatosPersona_acepta_iff (anioActual : Int) (datos : Datos) :
    validarDatosPersona anioActual datos = .ok none ↔
      esBlanco datos.nombre = false ∧ esBlanco datos.apellido = false ∧
      validarFechaNacimiento anioActual datos.fechaNacimiento = none ∧
      datos.tipoSeleccionado = "ciudadano" ∧
      ((∃ n : Int, datos.dni = Numero.entero n ∧ 0 < n) ∨
        datos.dni = Numero.infinito false) := by
  unfold validarDatosPersona
  by_cases h1 : esBlanco datos.nombre = true
  · simp [h1]
  · by_cases h2 : esBlanco datos.apellido = true
    · simp [h1, h2]
    · cases hf : validarFechaNacimiento anioActual datos.fechaNacimiento with
      | some m => simp [h1, h2]
      | none =>
        by_cases ht : datos.tipoSeleccionado = "ciudadano"
        · cases hd : datos.dni with
          | nan => simp [h1, h2, ht, validarDatosCiudadano, hd, Numero.esNaN]
          | entero n =>
            simp [h1, h2, ht, validarDatosCiudadano, hd, Numero.esNaN, Numero.menorIgual]
          | infinito s =>
            cases s <;>
              simp [h1, h2, ht, validarDatosCiudadano, hd, Numero.esNaN, Numero.menorIgual]
        · by_cases hc : datos.tipoSeleccionado = "camion"
          · simp [h1, h2, ht, hc]
          · simp [h1, h2, ht, hc]

/-! ## Load and decoding -/

/-- On an object the callback of the load never throws and follows `reglaDeCarga`. -/
theorem decodificar_objeto (o : Objeto) :
    decodificar (Elemento.objeto o) = .ok (reglaDeCarga o) := by
  unfold decodificar reglaDeCarga Objeto.tiene
  simp only [Elemento.leer]
  by_cases hp : Objeto.leer o "paisOrigen" = Valor.undefined
  · by_cases hd : Objeto.leer o "dni" = Valor.undefined
    · simp [hp, hd]
    · simp [hp, hd]
  · simp [hp]

/-- On an array of objects `data.map` decodes every element. -/
theorem decodificarTodos_objetos (objetos : List Objeto) :
    decodificarTodos (objetos.map Elemento.objeto) = .ok (objetos.map reglaDeCarga) := by
  induction objetos with
  | nil => rfl
  | cons o resto ih => simp [decodificarTodos, decodificar_objeto, ih]

/-- Length of a `filterMap` as a count. -/
theorem length_filterMap_eq {α β : Type} (f : α → Option β) (l : List α) :
    (l.filterMap f).length = (l.filter (fun a => (f a).isSome)).length := by
  induction l with
  | nil => rfl
  | cons a l ih =>
    cases h : f a <;> simp [List.filterMap_cons, List.filter_cons, h, ih]

/-- A record is decoded exactly from the objects that have one of the two fields. -/
theorem reglaDeCarga_isSome (o : Objeto) :
    (reglaDeCarga o).isSome = (o.tiene "dni" || o.tiene "paisOrigen") := by
  unfold reglaDeCarga
  cases hp : Objeto.tiene o "paisOrigen" <;> cases hd : Objeto.tiene o "dni" <;> simp

/-- C3 (counterexample): an object that has `dni` and also `paisOrigen` is not decoded as a
`Ciudadano`. -/
theorem C3_contraejemplo :
    Objeto.tiene objetoConAmbos "dni" = true ∧
    ¬ ∃ id nombre apellido fechaNacimiento dni, decodificar (Elemento.objeto objetoConAmbos) =
        .ok (some (Persona.ciudadano id nombre apellido fechaNacimiento dni)) := by
  refine ⟨by decide, ?_⟩
  rintro ⟨id, n, a, f, d, h⟩
  rw [decodificar_objeto] at h
  have h2 : reglaDeCarga objetoConAmbos = some (Persona.extranjero (Valor.ent 2)
      (Valor.cadena "Luz") (Valor.cadena "Paz") (Valor.cadena "19851231")
      (Valor.cadena "Chile")) := by decide
  rw [h2] at h
  cases h

/-- C3 (amended): the decode step of a load yields an `Extranjero` if the object has
`paisOrigen`, otherwise a `Ciudadano` if it has `dni`, otherwise nothing; each record takes
its fields from the object.  The response of the scenario gives a store of exactly one
`Ciudadano` with `dni` 123. -/
theorem C3_regla_de_decodificacion :
    (∀ o : Objeto, o.tiene "paisOrigen" = true →
      decodificar (Elemento.objeto o) = .ok (some (Persona.extranjero (o.leer "id")
        (o.leer "nombre") (o.leer "apellido") (o.leer "fechaNacimiento")
        (o.leer "paisOrigen")))) ∧
    (∀ o : Objeto, o.tiene "paisOrigen" = false → o.tiene "dni" = true →
      decodificar (Elemento.objeto o) = .ok (some (Persona.ciudadano (o.leer "id")
        (o.leer "nombre") (o.leer "apellido") (o.leer "fechaNacimiento") (o.leer "dni")))) ∧
    (∀ o : Objeto, o.tiene "paisOrigen" = false → o.tiene "dni" = false →
      decodificar (Elemento.objeto o) = .ok none) ∧
    (cargarDatos 200 respuestaAna Estado.inicial).personas =
      [Persona.ciudadano (Valor.ent 1) (Valor.cadena "Ana") (Valor.cadena "Diaz")
        (Valor.cadena "19900101") (Valor.ent 123)] := by
  refine ⟨?_, ?_, ?_, by decide⟩
  · intro o hp
    simp [decodificar_objeto, reglaDeCarga, hp]
  · intro o hp hd
    simp [decodificar_objeto, reglaDeCarga, hp, hd]
  · intro o hp hd
    simp [decodificar_objeto, reglaDeCarga, hp, hd]

/-- C3 (witness): the first rule applied to an object that has both fields. -/
theorem C3_regla_de_decodificacion_witness :
    Objeto.tiene objetoConAmbos "paisOrigen" = true ∧
    decodificar (Elemento.objeto objetoConAmbos) =
      .ok (some (Persona.extranjero (objetoConAmbos.leer "id") (objetoConAmbos.leer "nombre")
        (objetoConAmbos.leer "apellido") (objetoConAmbos.leer "fechaNacimiento")
        (objetoConAmbos.leer "paisOrigen"))) :=
  ⟨by decide, C3_regla_de_decodificacion.1 objetoConAmbos (by decide)⟩

/-- On a number, a string or a boolean the callback of the load returns `undefined`. -/
theorem decodificar_no_nulo (x : Elemento) (h : x.esNulo = false) :
    decodificar x = .ok (reglaDeCargaElemento x) := by
  cases x with
  | objeto o => exact decodificar_objeto o
  | primitivo v =>
    cases v with
    | undefined => cases h
    | null => cases h
    | booleano b => rfl
    | numero n => rfl
    | cadena c => rfl

/-- On `null` the callback of the load throws. -/
theorem decodificar_nulo (x : Elemento) (h : x.esNulo = true) :
    decodificar x = .error Fallo.typeError := by
  cases x with
  | objeto o => cases h
  | primitivo v =>
    cases v with
    | undefined => rfl
    | null => rfl
    | booleano b => cases h
    | numero n => cases h
    | cadena c => cases h

/-- On an array without `null`, `data.map` decodes every element. -/
theorem decodificarTodos_sin_nulos (data : List Elemento)
    (h : ∀ x ∈ data, x.esNulo = false) :
    decodificarTodos data = .ok (data.map reglaDeCargaElemento) := by
  induction data with
  | nil => rfl
  | cons x xs ih =>
    have hx := decodificar_no_nulo x (h x (List.mem_cons_self _ _))
    have hxs := ih (fun y hy => h y (List.mem_cons_of_mem _ hy))
    simp [decodificarTodos, hx, hxs]

/-- On an array with a `null` element, `data.map` throws. -/
theorem decodificarTodos_con_nulo (data : List Elemento)
    (h : ∃ x ∈ data, x.esNulo = true) :
    ∃ f, decodificarTodos data = .error f := by
  induction data with
  | nil =>
    obtain ⟨x, hx, _⟩ := h
    cases hx
  | cons y ys ih =>
    cases hy : decodificar y with
    | error g => exact ⟨g, by simp [decodificarTodos, hy]⟩
    | ok p =>
      have hys : ∃ x ∈ ys, x.esNulo = true := by
        obtain ⟨x, hx, hn⟩ := h
        rcases List.mem_cons.mp hx with rfl | hx2
        · rw [decodificar_nulo x hn] at hy
          cases hy
        · exact ⟨x, hx2, hn⟩
      obtain ⟨f, hf⟩ := ih hys
      exact ⟨f, by simp [decodificarTodos, hy, hf]⟩

/-- A record is decoded exactly from the elements that are objects with one of the two
fields. -/
theorem reglaDeCargaElemento_isSome (x : Elemento) :
    (reglaDeCargaElemento x).isSome = x.tieneCampoDeVariante := by
  cases x with
  | objeto o => exact reglaDeCarga_isSome o
  | primitivo v => rfl

/-- C4 (counterexample): the load is answered with the array `[null, {id: 7, ..., dni: 5}]`.
Its second element is a decodable object, yet the callback throws on `null`, the catch
shows "No se pudieron cargar los datos." and the store is not assigned: it stays empty,
where the claim gives it one record. -/
theorem C4_contraejemplo :
    (cargarDatos 200 (Documento.arreglo respuestaConNull) Estado.inicial).personas = [] ∧
    (cargarDatos 200 (Documento.arreglo respuestaConNull) Estado.inicial).alertas =
      ["No se pudieron cargar los datos."] ∧
    respuestaConNull.filterMap reglaDeCargaElemento =
      [Persona.ciudadano (Valor.ent 7) (Valor.cadena "Ana") (Valor.cadena "Diaz")
        (Valor.cadena "19900101") (Valor.ent 5)] ∧
    (respuestaConNull.filter Elemento.tieneCampoDeVariante).length = 1 := by
  decide

/-- C4 (amended): for every load response array (status 200) none of whose elements is
`null`, the store after `cargarDatos` is the list of the decodable objects of the response
in response order, an object with both `dni` and `paisOrigen` being decoded as an
`Extranjero` and an element with neither being dropped, so that its length is the number
of elements that have at least one of the two fields; when an element is `null` the load
fails and the store keeps the value it had. -/
theorem C4_almacen_tras_la_carga (data : List Elemento) (e : Estado) :
    ((∀ x ∈ data, x.esNulo = false) →
      (cargarDatos 200 (Documento.arreglo data) e).personas =
        data.filterMap reglaDeCargaElemento ∧
      (cargarDatos 200 (Documento.arreglo data) e).personas.length =
        (data.filter Elemento.tieneCampoDeVariante).length) ∧
    ((∃ x ∈ data, x.esNulo = true) →
      (cargarDatos 200 (Documento.arreglo data) e).personas = e.personas) ∧
    (∀ o : Objeto, o.tiene "dni" = true → o.tiene "paisOrigen" = true →
      reglaDeCargaElemento (Elemento.objeto o) =
        some (Persona.extranjero (o.leer "id") (o.leer "nombre")
          (o.leer "apellido") (o.leer "fechaNacimiento") (o.leer "paisOrigen"))) ∧
    (∀ o : Objeto, o.tiene "dni" = false → o.tiene "paisOrigen" = false →
      reglaDeCargaElemento (Elemento.objeto o) = none) := by
  refine ⟨?_, ?_, ?_, ?_⟩
  · intro hn
    have h : (cargarDatos 200 (Documento.arreglo data) e).personas =
        data.filterMap reglaDeCargaElemento := by
      simp [cargarDatos, decodificarTodos_sin_nulos data hn, ocultarSpinner, actualizarTabla,
        List.filterMap_map]
    refine ⟨h, ?_⟩
    rw [h, length_filterMap_eq]
    simp only [reglaDeCargaElemento_isSome]
  · intro hn
    obtain ⟨f, hf⟩ := decodificarTodos_con_nulo data hn
    simp [cargarDatos, hf, ocultarSpinner, alert, enviar, mostrarSpinner]
  · intro o _ hp
    simp [reglaDeCargaElemento, reglaDeCarga, hp]
  · intro o hd hp
    simp [reglaDeCargaElemento, reglaDeCarga, hp, hd]

/-- C4 (witness): a response of four elements without `null` (a number, an object with
both fields, an object with neither, an object with `dni` alone) gives a store of two
records, the `Extranjero` decoded from the second element and the `Ciudadano` decoded
from the fourth. -/
theorem C4_almacen_tras_la_carga_witness :
    (∀ x ∈ respuestaVariada, x.esNulo = false) ∧
    ((cargarDatos 200 (Documento.arreglo respuestaVariada) estadoMixto).personas =
        respuestaVariada.filterMap reglaDeCargaElemento ∧
      (cargarDatos 200 (Documento.arreglo respuestaVariada) estadoMixto).personas.length =
        (respuestaVariada.filter Elemento.tieneCampoDeVariante).length) ∧
    respuestaVariada.filterMap reglaDeCargaElemento =
      [Persona.extranjero (Valor.ent 2) (Valor.cadena "Luz") (Valor.cadena "Paz")
          (Valor.cadena "19851231") (Valor.cadena "Chile"),
        Persona.ciudadano (Valor.ent 7) (Valor.cadena "Ana") (Valor.cadena "Diaz")
          (Valor.cadena "19900101") (Valor.ent 5)] :=
  ⟨by decide,
    (C4_almacen_tras_la_carga respuestaVariada estadoMixto).1 (by decide), by decide⟩

/-- A `null` element makes the callback of the load throw: the store keeps its value. -/
theorem cargarDatos_elemento_null (antes despues : List Elemento) (e : Estado) :
    (cargarDatos 200 (Documento.arreglo (antes ++ Elemento.primitivo Valor.null :: despues))
      e).personas = e.personas := by
  have h : ∀ l : List Elemento, ∃ f,
      decodificarTodos (l ++ Elemento.primitivo Valor.null :: despues) = .error f := by
    intro l
    induction l with
    | nil => exact ⟨Fallo.typeError, by simp [decodificarTodos, decodificar, Elemento.leer]⟩
    | cons x xs ih =>
      obtain ⟨f, hf⟩ := ih
      cases hx : decodificar x with
      | error g => exact ⟨g, by simp [decodificarTodos, hx]⟩
      | ok p => exact ⟨f, by simp [decodificarTodos, hx, hf]⟩
  obtain ⟨f, hf⟩ := h antes
  simp [cargarDatos, hf, ocultarSpinner, alert, enviar, mostrarSpinner]

/-! ## Serialisation round trip -/

/-- An integer value is `Valor.ent n` for some `n`. -/
theorem Valor.esEntero_iff (v : Valor) : v.esEntero = true ↔ ∃ n : Int, v = Valor.ent n := by
  cases v with
  | numero x => cases x <;> simp [Valor.esEntero, Valor.ent]
  | _ => simp [Valor.esEntero, Valor.ent]

/-- A string value is `Valor.cadena s` for some `s`. -/
theorem Valor.esCadena_iff (v : Valor) : v.esCadena = true ↔ ∃ s : String, v = Valor.cadena s := by
  cases v <;> simp [Valor.esCadena]

/-- The round trip on the records of the data model: whatever the `id` (an integer or
`null`), name, surname and birth date (strings) and `dni` (an integer) or `paisOrigen` (a
string), decoding the JSON produced by `toJson()` with the rule of the load gives a record
of the same variant with the same five fields. -/
theorem ida_y_vuelta_modelo_de_datos :
    (∀ (id : Option Int) (nombre apellido fechaNacimiento : String) (dni : Int),
      decodificar (Elemento.objeto (jsonParse (Persona.ciudadano (Valor.deId id)
        (Valor.cadena nombre) (Valor.cadena apellido) (Valor.cadena fechaNacimiento)
        (Valor.ent dni)).toJson)) =
      .ok (some (Persona.ciudadano (Valor.deId id) (Valor.cadena nombre)
        (Valor.cadena apellido) (Valor.cadena fechaNacimiento) (Valor.ent dni)))) ∧
    (∀ (id : Option Int) (nombre apellido fechaNacimiento paisOrigen : String),
      decodificar (Elemento.objeto (jsonParse (Persona.extranjero (Valor.deId id)
        (Valor.cadena nombre) (Valor.cadena apellido) (Valor.cadena fechaNacimiento)
        (Valor.cadena paisOrigen)).toJson)) =
      .ok (some (Persona.extranjero (Valor.deId id) (Valor.cadena nombre)
        (Valor.cadena apellido) (Valor.cadena fechaNacimiento)
        (Valor.cadena paisOrigen)))) := by
  constructor
  · intro id nombre apellido fechaNacimiento dni
    cases id <;> rfl
  · intro id nombre apellido fechaNacimiento paisOrigen
    cases id <;> rfl

/-- Outside the data model the round trip can fail: JSON has no `NaN`, so an `id` that is
`NaN` comes back as `null`. -/
theorem ida_y_vuelta_nan :
    decodificar (Elemento.objeto (jsonParse (Persona.ciudadano (Valor.numero Numero.nan)
      (Valor.cadena "Ana") (Valor.cadena "Diaz") (Valor.cadena "19900101")
      (Valor.ent 123)).toJson)) =
      .ok (some (Persona.ciudadano Valor.null (Valor.cadena "Ana") (Valor.cadena "Diaz")
        (Valor.cadena "19900101") (Valor.ent 123))) := by
  rfl

/-! ## Filtering -/

/-- Filtering a list whose records all pass the filter changes nothing. -/
theorem filtrarPersonas_filtrarPersonas (filtro : Valor) (l : List Persona) :
    filtrarPersonas filtro (filtrarPersonas filtro l) = filtrarPersonas filtro l := by
  unfold filtrarPersonas
  rw [List.filter_filter]
  simp

/-- C6: with the criterion `'ciudadano'` the filter returns the `Ciudadano` records of the
list in their order, with `'extranjeros'` the `Extranjero` records in their order, and
with any other value (so also `undefined` and the empty string) the list itself. -/
theorem C6_filtrarPersonas :
    (∀ l : List Persona, filtrarPersonas (Valor.cadena "ciudadano") l =
      l.filter Persona.esCiudadano) ∧
    (∀ l : List Persona, filtrarPersonas (Valor.cadena "extranjeros") l =
      l.filter Persona.esExtranjero) ∧
    (∀ (filtro : Valor) (l : List Persona), filtro ≠ Valor.cadena "ciudadano" →
      filtro ≠ Valor.cadena "extranjeros" → filtrarPersonas filtro l = l) ∧
    (∀ l : List Persona, filtrarPersonas Valor.undefined l = l) ∧
    (∀ l : List Persona, filtrarPersonas (Valor.cadena "") l = l) := by
  refine ⟨?_, ?_, ?_, ?_, ?_⟩
  · intro l
    simp [filtrarPersonas]
  · intro l
    have h : Valor.cadena "extranjeros" ≠ Valor.cadena "ciudadano" := by decide
    simp [filtrarPersonas, h]
  · intro filtro l h1 h2
    simp [filtrarPersonas, h1, h2]
  · intro l
    simp [filtrarPersonas]
  · intro l
    have h1 : Valor.cadena "" ≠ Valor.cadena "ciudadano" := by decide
    have h2 : Valor.cadena "" ≠ Valor.cadena "extranjeros" := by decide
    simp [filtrarPersonas, h1, h2]

/-- C6 (witness): the criterion `'extranjero'` (singular) is none of the two recognised
values, so it filters nothing. -/
theorem C6_filtrarPersonas_witness :
    Valor.cadena "extranjero" ≠ Valor.cadena "ciudadano" ∧
    Valor.cadena "extranjero" ≠ Valor.cadena "extranjeros" ∧
    filtrarPersonas (Valor.cadena "extranjero") personasMismoId = personasMismoId :=
  ⟨by decide, by decide,
    C6_filtrarPersonas.2.2.1 (Valor.cadena "extranjero") personasMismoId (by decide) (by decide)⟩

/-! ## Update and delete -/

/-- C9 (the code at the failing input): the store holds an `Extranjero` with id 1 and the
form carries an edit of it with valid fields.  `modificarPersona` sends no request, shows
the message for an invalid type and leaves the store as it was, whatever the answer to
the `PUT` would have been. -/
theorem C9_edicion_de_extranjero_descartada :
    (modificarPersona 2024 (Respuesta.exito "OK") estadoEdicionExtranjero).estado.personas =
      [Persona.extranjero (Valor.ent 1) (Valor.cadena "Ana") (Valor.cadena "Diaz")
        (Valor.cadena "19900101") (Valor.cadena "Chile")] ∧
    (modificarPersona 2024 (Respuesta.exito "OK") estadoEdicionExtranjero).estado.peticiones
      = [] ∧
    (modificarPersona 2024 (Respuesta.exito "OK") estadoEdicionExtranjero).estado.alertas =
      ["Tipo seleccionado no válido. Por favor, seleccione 'ciudadano' o 'camion'."] ∧
    validarDatosExtranjero ⟨Valor.undefined, "Ana", "Diaz", "19900101", Numero.nan, "Peru",
      "extranjero"⟩ = none := by
  decide

/-- What `findIndex` finds: the first position whose record has an id `===` to `id`. -/
theorem findIndexPorId_some (id : Valor) (l : List Persona) (i : Nat)
    (h : findIndexPorId id l = some i) :
    (∃ p, l[i]? = some p ∧ estrictamenteIgual p.id id = true) ∧
    ∀ j, j < i → ∀ q, l[j]? = some q → estrictamenteIgual q.id id = false := by
  induction l generalizing i with
  | nil => cases h
  | cons p ps ih =>
    unfold findIndexPorId at h
    by_cases hp : estrictamenteIgual p.id id = true
    · rw [if_pos hp] at h
      cases h
      exact ⟨⟨p, by simp, hp⟩, fun j hj => absurd hj (Nat.not_lt_zero j)⟩
    · rw [if_neg hp] at h
      cases hr : findIndexPorId id ps with
      | none => simp [hr] at h
      | some k =>
        have hik : i = k + 1 := by simpa [hr] using h.symm
        subst hik
        obtain ⟨h1, h2⟩ := ih k hr
        refine ⟨by simpa using h1, ?_⟩
        intro j hj q hq
        cases j with
        | zero =>
          simp only [List.getElem?_cons_zero, Option.some.injEq] at hq
          subst hq
          simpa using hp
        | succ j =>
          simp only [List.getElem?_cons_succ] at hq
          exact h2 j (by omega) q hq

/-- An edit whose type is not `ciudadano` never reaches the store: `modificarPersona`
leaves the store as it was and sends no request, whatever the answer would be. -/
theorem modificarPersona_no_ciudadano (anioActual : Int) (r : Respuesta) (e : Estado)
    (h : e.formulario.tipo ≠ "ciudadano") :
    (modificarPersona anioActual r e).estado.personas = e.personas ∧
    (modificarPersona anioActual r e).estado.peticiones = e.peticiones := by
  have hno : validarDatosPersona anioActual (datosPersonaDelFormulario e.formulario) ≠
      .ok none := by
    intro hv
    exact h ((validarDatosPersona_acepta_iff _ _).mp hv).2.2.2.1
  simp only [modificarPersona, modificarPersonaEnvio, mostrarSpinner]
  cases hv : validarDatosPersona anioActual (datosPersonaDelFormulario e.formulario) with
  | error f => exact ⟨rfl, rfl⟩
  | ok m =>
    cases m with
    | none => exact absurd hv hno
    | some msg => exact ⟨rfl, rfl⟩

/-- The update of a `Ciudadano`: when the form passes validation and the store has an
entry whose id is `===` to the id of the form, `modificarPersona` with a successful `PUT`
puts the edited record at the first such index and changes no other position; the `PUT`
carries the edited record, the table shows the new store under the active filter and the
form is hidden. -/
theorem modificarPersona_ciudadano (anioActual : Int) (texto : String) (e : Estado) (i : Nat)
    (hv : validarDatosPersona anioActual (datosPersonaDelFormulario e.formulario) = .ok none)
    (hi : findIndexPorId (Valor.numero (parseInt e.formulario.id.data 0)) e.personas = some i) :
    (modificarPersona anioActual (Respuesta.exito texto) e).estado.personas =
      e.personas.set i (ciudadanoDelFormulario e.formulario) ∧
    (modificarPersona anioActual (Respuesta.exito texto) e).estado.personas.length =
      e.personas.length ∧
    (modificarPersona anioActual (Respuesta.exito texto) e).excepcion = none ∧
    (modificarPersona anioActual (Respuesta.exito texto) e).estado.peticiones =
      e.peticiones ++ [Peticion.put (some (ciudadanoDelFormulario e.formulario))] ∧
    (modificarPersona anioActual (Respuesta.exito texto) e).estado.tabla =
      filtrarPersonas (Valor.cadena e.filtro)
        (e.personas.set i (ciudadanoDelFormulario e.formulario)) ∧
    (modificarPersona anioActual (Respuesta.exito texto) e).estado.formularioVisible = false := by
  have ht : e.formulario.tipo = "ciudadano" :=
    ((validarDatosPersona_acepta_iff _ _).mp hv).2.2.2.1
  have hid : (ciudadanoDelFormulario e.formulario).id =
      Valor.numero (parseInt e.formulario.id.data 0) := rfl
  have hm : modificarPersona anioActual (Respuesta.exito texto) e =
      ⟨modificarPersonaRespuesta (some (ciudadanoDelFormulario e.formulario))
        (Respuesta.exito texto)
        (enviar (Peticion.put (some (ciudadanoDelFormulario e.formulario)))
          (mostrarSpinner e)), none⟩ := by
    simp only [modificarPersona, modificarPersonaEnvio, hv, ht, if_true, mostrarSpinner]
  rw [hm]
  simp only [modificarPersonaRespuesta, hid, alert, ocultarSpinner, enviar, mostrarSpinner, hi,
    ocultarFormularioABM, actualizarTabla, Option.getD_none, List.length_set, and_self]

/-- The operator `===` on a value that is not `NaN` is equality. -/
theorem estrictamenteIgual_eq (a b : Valor) (h : b ≠ Valor.numero Numero.nan) :
    estrictamenteIgual a b = decide (a = b) := by
  unfold estrictamenteIgual
  split
  · simp
    intro h2
    exact h h2.symm
  · exact absurd rfl h
  · rfl

/-- Nothing is `===` to `NaN`. -/
theorem estrictamenteIgual_nan (a : Valor) :
    estrictamenteIgual a (Valor.numero Numero.nan) = false := by
  unfold estrictamenteIgual
  split <;> simp_all

/-- C10: after `eliminarPersona(id)` the store is, if the `DELETE` response is successful,
the list of the records of the old store whose id is not `===` to `id`, in their order;
if the response has another status or the request fails, the store is the old store. -/
theorem C10_eliminarPersona (e : Estado) (id : Valor) :
    (∀ texto : String, (eliminarPersona id (Respuesta.exito texto) e).personas =
      e.personas.filter (fun persona => !estrictamenteIgual persona.id id)) ∧
    (eliminarPersona id Respuesta.noOk e).personas = e.personas ∧
    (∀ mensaje : String, (eliminarPersona id (Respuesta.fallo mensaje) e).personas =
      e.personas) ∧
    (id ≠ Valor.numero Numero.nan → ∀ texto : String,
      (eliminarPersona id (Respuesta.exito texto) e).personas =
        e.personas.filter (fun persona => decide (persona.id ≠ id))) := by
  refine ⟨?_, ?_, ?_, ?_⟩
  · intro texto
    rfl
  · rfl
  · intro mensaje
    rfl
  · intro h texto
    show e.personas.filter (fun persona => !estrictamenteIgual persona.id id) = _
    congr 1
    funext persona
    rw [estrictamenteIgual_eq _ _ h]
    simp

/-- C10 (witness): deleting id 1 from a store whose two records both have id 1. -/
theorem C10_eliminarPersona_witness :
    Valor.ent 1 ≠ Valor.numero Numero.nan ∧
    (eliminarPersona (Valor.ent 1) (Respuesta.exito "")
      { Estado.inicial with personas := personasMismoId }).personas =
      personasMismoId.filter (fun persona => decide (persona.id ≠ Valor.ent 1)) :=
  ⟨by decide, (C10_eliminarPersona { Estado.inicial with personas := personasMismoId }
    (Valor.ent 1)).2.2.2 (by decide) ""⟩

/-! ## Sorting -/

/-- When the comparison function never throws on the elements at hand and its sign
follows the relation `r`, inserting with it is `List.orderedInsert`. -/
theorem insertarOrdenado_eq {α : Type} (cmp : α → α → Except Fallo Numero)
    (r : α → α → Prop) [DecidableRel r] (x : α) (l : List α)
    (h : ∀ y ∈ l, ∃ v, cmp x y = .ok v ∧ (v.mayor (Numero.entero 0) = true ↔ ¬ r x y)) :
    insertarOrdenado cmp x l = .ok (l.orderedInsert r x) := by
  induction l with
  | nil => rfl
  | cons y ys ih =>
    obtain ⟨v, hv, hm⟩ := h y (List.mem_cons_self _ _)
    have ih2 := ih (fun z hz => h z (List.mem_cons_of_mem _ hz))
    by_cases hr : r x y
    · have hf : v.mayor (Numero.entero 0) = false := by
        cases hb : v.mayor (Numero.entero 0) with
        | false => rfl
        | true => exact absurd hr (hm.mp hb)
      simp [insertarOrdenado, hv, hf, List.orderedInsert, hr]
    · have ht : v.mayor (Numero.entero 0) = true := hm.mpr hr
      simp [insertarOrdenado, hv, ht, List.orderedInsert, hr, ih2]

/-- Under the same conditions the model of `sort` is `List.insertionSort`. -/
theorem ordenarJS_eq {α : Type} (cmp : α → α → Except Fallo Numero)
    (r : α → α → Prop) [DecidableRel r] (l : List α)
    (h : ∀ x ∈ l, ∀ y ∈ l,
      ∃ v, cmp x y = .ok v ∧ (v.mayor (Numero.entero 0) = true ↔ ¬ r x y)) :
    ordenarJS cmp l = .ok (l.insertionSort r) := by
  induction l with
  | nil => rfl
  | cons x xs ih =>
    have ih2 := ih (fun a ha b hb =>
      h a (List.mem_cons_of_mem _ ha) b (List.mem_cons_of_mem _ hb))
    have hins := insertarOrdenado_eq cmp r x (xs.insertionSort r) (fun y hy =>
      h x (List.mem_cons_self _ _) y
        (List.mem_cons_of_mem _ ((List.perm_insertionSort r xs).mem_iff.mp hy)))
    simp [ordenarJS, ih2, hins, List.insertionSort]

/-- Insertion keeps the elements of each key in their order: the new element goes before
the elements of its own key. -/
theorem filter_orderedInsert_clave {α : Type} (k : α → Int) (r : α → α → Prop)
    [DecidableRel r] (hr : ∀ a b, k a = k b → r a b) (x : α) (l : List α) (c : Int) :
    (l.orderedInsert r x).filter (fun a => decide (k a = c)) =
      (x :: l).filter (fun a => decide (k a = c)) := by
  induction l with
  | nil => rfl
  | cons y ys ih =>
    by_cases hxy : r x y
    · simp [List.orderedInsert, hxy]
    · have hne : k x ≠ k y := fun heq => hxy (hr x y heq)
      simp only [List.orderedInsert, hxy, if_false]
      by_cases hy : k y = c
      · have hx : k x ≠ c := fun hxc => hne (hxc.trans hy.symm)
        rw [List.filter_cons_of_pos (by simpa using hy), ih]
        simp [List.filter_cons, hx, hy]
      · rw [List.filter_cons_of_neg (by simpa using hy), ih]
        simp [List.filter_cons, hy]

/-- Insertion sort is stable: for each key, the elements of that key come out in the
order in which they went in. -/
theorem filter_insertionSort_clave {α : Type} (k : α → Int) (r : α → α → Prop)
    [DecidableRel r] (hr : ∀ a b, k a = k b → r a b) (l : List α) (c : Int) :
    (l.insertionSort r).filter (fun a => decide (k a = c)) =
      l.filter (fun a => decide (k a = c)) := by
  induction l with
  | nil => rfl
  | cons x xs ih =>
    rw [List.insertionSort, filter_orderedInsert_clave k r hr]
    simp [List.filter_cons, ih]

/-- Insertion sort by a key in ascending order gives a list in ascending order. -/
theorem pairwise_insertionSort_asc {α : Type} (k : α → Int) (l : List α) :
    (l.insertionSort (fun a b => k a ≤ k b)).Pairwise (fun a b => k a ≤ k b) := by
  haveI : IsTotal α (fun a b => k a ≤ k b) := ⟨fun a b => le_total (k a) (k b)⟩
  haveI : IsTrans α (fun a b => k a ≤ k b) := ⟨fun _ _ _ h1 h2 => le_trans h1 h2⟩
  exact List.sorted_insertionSort (fun a b => k a ≤ k b) l

/-- Insertion sort by a key in descending order gives a list in descending order. -/
theorem pairwise_insertionSort_desc {α : Type} (k : α → Int) (l : List α) :
    (l.insertionSort (fun a b => k b ≤ k a)).Pairwise (fun a b => k b ≤ k a) := by
  haveI : IsTotal α (fun a b => k b ≤ k a) := ⟨fun a b => le_total (k b) (k a)⟩
  haveI : IsTrans α (fun a b => k b ≤ k a) := ⟨fun _ _ _ h1 h2 => le_trans h2 h1⟩
  exact List.sorted_insertionSort (fun a b => k b ≤ k a) l

/-- Two permutations of one list that are both strictly descending in an integer key are
the same list. -/
theorem eq_of_perm_of_desc {α : Type} (k : α → Int) (l1 l2 : List α) (hp : l1.Perm l2)
    (h1 : l1.Pairwise (fun a b => k b < k a)) (h2 : l2.Pairwise (fun a b => k b < k a)) :
    l1 = l2 := by
  haveI : IsAntisymm α (fun a b => k b < k a) :=
    ⟨fun _ _ hab hba => absurd (lt_trans hab hba) (lt_irrefl _)⟩
  exact List.eq_of_perm_of_sorted hp h1 h2

/-- A list re-filtered with the filter it came from is unchanged, and so is any
permutation of it. -/
theorem filtrarPersonas_of_perm (filtro : Valor) (l t : List Persona)
    (hp : t.Perm (filtrarPersonas filtro l)) : filtrarPersonas filtro t = t := by
  unfold filtrarPersonas at hp ⊢
  rw [List.filter_eq_self]
  intro a ha
  exact (List.mem_filter.mp (hp.mem_iff.mp ha)).2

/-- The sort key of the column `dni` on a record whose `dni`, if it is a `Ciudadano`, is an
integer. -/
theorem obtenerValorParaOrdenar_dni (p : Persona)
    (h : p.esCiudadano = true → p.dni.esEntero = true) :
    obtenerValorParaOrdenar p "dni" = Valor.ent (claveDni p) := by
  have e1 : ("dni" = "id") = False := by decide
  have e2 : ("dni" = "nombre") = False := by decide
  have e3 : ("dni" = "apellido") = False := by decide
  have e4 : ("dni" = "fechaNacimiento") = False := by decide
  cases p with
  | ciudadano id n a f d =>
    have hd := h rfl
    simp only [Persona.dni, Valor.esEntero_iff] at hd
    obtain ⟨m, rfl⟩ := hd
    by_cases hm : m = 0
    · subst hm
      simp [obtenerValorParaOrdenar, e1, e2, e3, e4, Persona.dni, esVerdadero, claveDni]
    · simp [obtenerValorParaOrdenar, e1, e2, e3, e4, Persona.dni, esVerdadero, claveDni, hm]
  | extranjero id n a f q =>
    simp [obtenerValorParaOrdenar, e1, e2, e3, e4, Persona.dni, esVerdadero, claveDni]

/-- The comparison function on two records whose sort keys are the integers `x` and `y`:
the difference, in the direction of the flag. -/
theorem comparador_enteros (lc : String → String → Int) (asc : Bool) (columna : String)
    (a b : Persona) (x y : Int) (ha : obtenerValorParaOrdenar a columna = Valor.ent x)
    (hb : obtenerValorParaOrdenar b columna = Valor.ent y) :
    comparador lc asc columna a b =
      .ok (Numero.entero (if asc = true then x - y else y - x)) := by
  cases asc <;>
    simp [comparador, ha, hb, restarValores, Valor.aNumero, Numero.restar]

/-- With integer sort keys `k` the model of `sort` under the comparison function is the
insertion sort by `k`, ascending or descending after the flag. -/
theorem ordenarJS_comparador (lc : String → String → Int) (asc : Bool) (columna : String)
    (k : Persona → Int) (l : List Persona)
    (hk : ∀ p ∈ l, obtenerValorParaOrdenar p columna = Valor.ent (k p)) :
    ordenarJS (comparador lc asc columna) l =
      .ok (if asc = true then l.insertionSort (fun a b => k a ≤ k b)
        else l.insertionSort (fun a b => k b ≤ k a)) := by
  cases asc with
  | true =>
    rw [ordenarJS_eq (comparador lc true columna) (fun a b => k a ≤ k b) l]
    · simp
    · intro a ha b hb
      refine ⟨_, comparador_enteros lc true columna a b (k a) (k b) (hk a ha) (hk b hb), ?_⟩
      simp [Numero.mayor, Numero.menor]
  | false =>
    rw [ordenarJS_eq (comparador lc false columna) (fun a b => k b ≤ k a) l]
    · simp
    · intro a ha b hb
      refine ⟨_, comparador_enteros lc false columna a b (k a) (k b) (hk a ha) (hk b hb), ?_⟩
      simp [Numero.mayor, Numero.menor]

/-- The integer that stands for the `id` of a record in the statements on sorting by `id`. -/
theorem obtenerValorParaOrdenar_id (p : Persona) (h : (idEntero p).isSome = true) :
    obtenerValorParaOrdenar p "id" = Valor.ent ((idEntero p).getD 0) := by
  unfold idEntero at h ⊢
  simp only [obtenerValorParaOrdenar, if_true]
  cases hp : p.id with
  | numero x =>
    cases x with
    | nan => simp [hp] at h
    | entero n => simp [Valor.ent]
    | infinito s => simp [hp] at h
  | undefined => simp [hp] at h
  | null => simp [hp] at h
  | booleano b => simp [hp] at h
  | cadena c => simp [hp] at h

/-- Records with integer ids have the same id exactly when they have the same integer. -/
theorem id_eq_of_idEntero_eq (a b : Persona) (ha : (idEntero a).isSome = true)
    (hb : (idEntero b).isSome = true)
    (h : (idEntero a).getD 0 = (idEntero b).getD 0) : a.id = b.id := by
  have h1 := obtenerValorParaOrdenar_id a ha
  have h2 := obtenerValorParaOrdenar_id b hb
  simp only [obtenerValorParaOrdenar, if_true] at h1 h2
  rw [h1, h2, h]

/-- What one call of `ordenarTabla` does when the sort keys of the filtered records are the
integers `k`: the table shows the filtered list sorted by `k` in the direction of the
flag, the flag is flipped, the store and the filter are untouched. -/
theorem ordenarTabla_enteros (lc : String → String → Int) (columna : String) (e : Estado)
    (k : Persona → Int)
    (hk : ∀ p ∈ filtrarPersonas (Valor.cadena e.filtro) e.personas,
      obtenerValorParaOrdenar p columna = Valor.ent (k p)) :
    ∃ e1, ordenarTabla lc columna e = .ok e1 ∧
      e1.tabla = (if e.ordenAscendente = true
        then (filtrarPersonas (Valor.cadena e.filtro) e.personas).insertionSort
          (fun a b => k a ≤ k b)
        else (filtrarPersonas (Valor.cadena e.filtro) e.personas).insertionSort
          (fun a b => k b ≤ k a)) ∧
      e1.personas = e.personas ∧ e1.filtro = e.filtro ∧
      e1.ordenAscendente = !e.ordenAscendente := by
  have hs := ordenarJS_comparador lc e.ordenAscendente columna k _ hk
  refine ⟨actualizarTabla (Valor.cadena e.filtro)
    (some (if e.ordenAscendente = true
      then (filtrarPersonas (Valor.cadena e.filtro) e.personas).insertionSort
        (fun a b => k a ≤ k b)
      else (filtrarPersonas (Valor.cadena e.filtro) e.personas).insertionSort
        (fun a b => k b ≤ k a)))
    { e with ordenAscendente := !e.ordenAscendente },
    by simp only [ordenarTabla, hs], ?_, rfl, rfl, rfl⟩
  simp only [actualizarTabla, Option.getD_some]
  apply filtrarPersonas_of_perm _ e.personas
  split
  · exact List.perm_insertionSort _ _
  · exact List.perm_insertionSort _ _

/-- A list in ascending order of a key without repeated keys is in strictly ascending
order. -/
theorem pairwise_lt_of_le_of_ne {α : Type} (k : α → Int) (t : List α)
    (h1 : t.Pairwise (fun a b => k a ≤ k b)) (h2 : t.Pairwise (fun a b => k a ≠ k b)) :
    t.Pairwise (fun a b => k a < k b) :=
  (h1.and h2).imp (fun h => lt_of_le_of_ne h.1 h.2)

/-- The ascending and the descending insertion sort of a list without repeated keys are
reverses of each other. -/
theorem insertionSort_desc_eq_reverse {α : Type} (k : α → Int) (l : List α)
    (hne : l.Pairwise (fun a b => k a ≠ k b)) :
    l.insertionSort (fun a b => k b ≤ k a) =
      (l.insertionSort (fun a b => k a ≤ k b)).reverse := by
  have pa := List.perm_insertionSort (fun a b => k a ≤ k b) l
  have pd := List.perm_insertionSort (fun a b => k b ≤ k a) l
  have na := (pa.pairwise_iff (fun h h2 => h h2.symm)).mpr hne
  have nd := (pd.pairwise_iff (fun h h2 => h h2.symm)).mpr hne
  have sa := pairwise_lt_of_le_of_ne k _ (pairwise_insertionSort_asc k l) na
  have sd : (l.insertionSort (fun a b => k b ≤ k a)).Pairwise (fun a b => k b < k a) :=
    ((pairwise_insertionSort_desc k l).and nd).imp (fun h => lt_of_le_of_ne h.1 (Ne.symm h.2))
  apply eq_of_perm_of_desc k _ _ _ sd
  · exact List.pairwise_reverse.mpr sa
  · exact pd.trans (pa.symm.trans (List.reverse_perm _).symm)

/-- C7 (counterexample): the store holds two records with the same id 1.  The first call
of `ordenarTabla('id')`, ascending, and the second, descending, both show the records in
the order of the store, which is not its own reverse. -/
theorem C7_contraejemplo :
    ordenarDosVeces localeCompareNulo "id" { Estado.inicial with personas := personasMismoId } =
      .ok (personasMismoId, personasMismoId) ∧
    personasMismoId ≠ personasMismoId.reverse ∧
    (personasMismoId.map Persona.id = [Valor.ent 1, Valor.ent 1]) := by
  refine ⟨rfl, by decide, by decide⟩

/-- C7 (amended): when the records of the store that pass the filter have integer ids that
are pairwise different, two calls of `ordenarTabla('id')` in a row succeed and show orders
that are exact reverses of each other; if the flag was ascending at the first call, the
first order is strictly ascending in the id. -/
theorem C7_orden_por_id_invertido (lc : String → String → Int) (e : Estado)
    (hid : ∀ p ∈ filtrarPersonas (Valor.cadena e.filtro) e.personas,
      (idEntero p).isSome = true)
    (hdist : (filtrarPersonas (Valor.cadena e.filtro) e.personas).Pairwise
      (fun a b => a.id ≠ b.id)) :
    ∃ t1 t2, ordenarDosVeces lc "id" e = .ok (t1, t2) ∧ t2 = t1.reverse ∧
      t1.Perm (filtrarPersonas (Valor.cadena e.filtro) e.personas) ∧
      (e.ordenAscendente = true →
        t1.Pairwise (fun a b => (idEntero a).getD 0 < (idEntero b).getD 0)) := by
  have hk : ∀ p ∈ filtrarPersonas (Valor.cadena e.filtro) e.personas,
      obtenerValorParaOrdenar p "id" = Valor.ent ((idEntero p).getD 0) :=
    fun p hp => obtenerValorParaOrdenar_id p (hid p hp)
  have hne : (filtrarPersonas (Valor.cadena e.filtro) e.personas).Pairwise
      (fun a b => (idEntero a).getD 0 ≠ (idEntero b).getD 0) := by
    rw [List.pairwise_iff_forall_sublist] at hdist ⊢
    intro a b hab heq
    have ha : a ∈ filtrarPersonas (Valor.cadena e.filtro) e.personas :=
      hab.subset (by simp)
    have hb : b ∈ filtrarPersonas (Valor.cadena e.filtro) e.personas :=
      hab.subset (by simp)
    exact hdist hab (id_eq_of_idEntero_eq a b (hid a ha) (hid b hb) heq)
  obtain ⟨e1, h1, ht1, hp1, hf1, ho1⟩ :=
    ordenarTabla_enteros lc "id" e (fun p => (idEntero p).getD 0) hk
  have hk1 : ∀ p ∈ filtrarPersonas (Valor.cadena e1.filtro) e1.personas,
      obtenerValorParaOrdenar p "id" = Valor.ent ((idEntero p).getD 0) := by
    rw [hp1, hf1]
    exact hk
  obtain ⟨e2, h2, ht2, _, _, _⟩ :=
    ordenarTabla_enteros lc "id" e1 (fun p => (idEntero p).getD 0) hk1
  rw [hp1, hf1, ho1] at ht2
  have hrev := insertionSort_desc_eq_reverse (fun p => (idEntero p).getD 0) _ hne
  refine ⟨e1.tabla, e2.tabla, by simp only [ordenarDosVeces, h1, h2], ?_, ?_, ?_⟩
  · rw [ht1, ht2]
    cases e.ordenAscendente with
    | true => simpa using hrev
    | false =>
      simp only [Bool.not_false, if_true, Bool.false_eq_true, if_false]
      rw [hrev, List.reverse_reverse]
  · rw [ht1]
    split
    · exact List.perm_insertionSort _ _
    · exact List.perm_insertionSort _ _
  · intro hasc
    rw [ht1, if_pos hasc]
    exact pairwise_lt_of_le_of_ne _ _ (pairwise_insertionSort_asc _ _)
      (((List.perm_insertionSort _ _).pairwise_iff (fun h h2 => h h2.symm)).mpr hne)

/-- C7 (witness): a store of three records with the ids 3, 1 and 2. -/
theorem C7_orden_por_id_invertido_witness :
    (∀ p ∈ filtrarPersonas (Valor.cadena estadoMixto.filtro) estadoMixto.personas,
      (idEntero p).isSome = true) ∧
    (filtrarPersonas (Valor.cadena estadoMixto.filtro) estadoMixto.personas).Pairwise
      (fun a b => a.id ≠ b.id) ∧
    ∃ t1 t2, ordenarDosVeces localeCompareNulo "id" estadoMixto = .ok (t1, t2) ∧
      t2 = t1.reverse ∧
      t1.Perm (filtrarPersonas (Valor.cadena estadoMixto.filtro) estadoMixto.personas) ∧
      (estadoMixto.ordenAscendente = true →
        t1.Pairwise (fun a b => (idEntero a).getD 0 < (idEntero b).getD 0)) :=
  ⟨by decide, by decide,
    C7_orden_por_id_invertido localeCompareNulo estadoMixto (by decide) (by decide)⟩

/-- C8 (counterexample): the load is answered with two `Ciudadano` objects whose `dni`
are the strings `"9"` and `"10"`, and the store keeps them as sent.  The sort keys are
strings, so `ordenarTabla('dni')`, ascending, compares them with `localeCompare` and shows
the record with `dni` `"10"` before the record with `dni` `"9"`: as numbers, 10 before 9. -/
theorem C8_contraejemplo :
    (cargarDatos 200 (Documento.arreglo respuestaDniCadena) Estado.inicial).personas.map
      Persona.dni = [Valor.cadena "9", Valor.cadena "10"] ∧
    (cargarDatos 200 (Documento.arreglo respuestaDniCadena) Estado.inicial).ordenAscendente =
      true ∧
    ((ordenarTabla localeCompareDigitos "dni"
      (cargarDatos 200 (Documento.arreglo respuestaDniCadena)
        Estado.inicial)).toOption.map Estado.tabla).map (List.map Persona.dni) =
      some [Valor.cadena "10", Valor.cadena "9"] ∧
    [Valor.cadena "10", Valor.cadena "9"].map (fun v => v.aNumero.toOption) =
      [some (Numero.entero 10), some (Numero.entero 9)] ∧
    (Numero.entero 10).menorIgual (Numero.entero 9) = false := by
  decide

/-- C8 (amended): when every `Ciudadano` of the store has an integer `dni`,
`ordenarTabla('dni')` succeeds and shows a permutation of the filtered list in which the records of each key
keep their relative order, the key being the `dni` of a `Ciudadano` and 0 for an
`Extranjero`; the order is non-decreasing in the key if the flag was ascending and
non-increasing if it was descending. -/
theorem C8_orden_por_dni (lc : String → String → Int) (e : Estado)
    (h : ∀ p ∈ e.personas, p.esCiudadano = true → p.dni.esEntero = true) :
    ∃ e1, ordenarTabla lc "dni" e = .ok e1 ∧
      e1.tabla.Perm (filtrarPersonas (Valor.cadena e.filtro) e.personas) ∧
      (∀ c : Int, e1.tabla.filter (fun p => decide (claveDni p = c)) =
        (filtrarPersonas (Valor.cadena e.filtro) e.personas).filter
          (fun p => decide (claveDni p = c))) ∧
      (e.ordenAscendente = true → e1.tabla.Pairwise (fun a b => claveDni a ≤ claveDni b)) ∧
      (e.ordenAscendente = false → e1.tabla.Pairwise (fun a b => claveDni b ≤ claveDni a)) := by
  have hk : ∀ p ∈ filtrarPersonas (Valor.cadena e.filtro) e.personas,
      obtenerValorParaOrdenar p "dni" = Valor.ent (claveDni p) := by
    intro p hp
    unfold filtrarPersonas at hp
    exact obtenerValorParaOrdenar_dni p (h p (List.mem_filter.mp hp).1)
  obtain ⟨e1, h1, ht1, _, _, _⟩ := ordenarTabla_enteros lc "dni" e claveDni hk
  refine ⟨e1, h1, ?_, ?_, ?_, ?_⟩
  · rw [ht1]
    split
    · exact List.perm_insertionSort _ _
    · exact List.perm_insertionSort _ _
  · intro c
    rw [ht1]
    split
    · exact filter_insertionSort_clave claveDni _ (fun a b hab => le_of_eq hab) _ c
    · exact filter_insertionSort_clave claveDni _ (fun a b hab => le_of_eq hab.symm) _ c
  · intro hasc
    rw [ht1, if_pos hasc]
    exact pairwise_insertionSort_asc claveDni _
  · intro hdesc
    rw [ht1, if_neg (by simp [hdesc])]
    exact pairwise_insertionSort_desc claveDni _

/-- C8 (witness): a store that mixes both variants, with the `dni` values 123 and -5. -/
theorem C8_orden_por_dni_witness :
    (∀ p ∈ estadoMixto.personas, p.esCiudadano = true → p.dni.esEntero = true) ∧
    ∃ e1, ordenarTabla localeCompareNulo "dni" estadoMixto = .ok e1 ∧
      e1.tabla.Perm (filtrarPersonas (Valor.cadena estadoMixto.filtro) estadoMixto.personas) ∧
      (∀ c : Int, e1.tabla.filter (fun p => decide (claveDni p = c)) =
        (filtrarPersonas (Valor.cadena estadoMixto.filtro) estadoMixto.personas).filter
          (fun p => decide (claveDni p = c))) ∧
      (estadoMixto.ordenAscendente = true →
        e1.tabla.Pairwise (fun a b => claveDni a ≤ claveDni b)) ∧
      (estadoMixto.ordenAscendente = false →
        e1.tabla.Pairwise (fun a b => claveDni b ≤ claveDni a)) :=
  ⟨by decide, C8_orden_por_dni localeCompareNulo estadoMixto (by decide)⟩

/-- The table shown by `ordenarTabla('dni')` on the mixed store, ascending: the
`Ciudadano` with `dni` -5, then the `Extranjero` (key 0), then the `Ciudadano` with `dni`
123. -/
theorem ordenarTabla_dni_ejemplo :
    (ordenarTabla localeCompareNulo "dni" estadoMixto).toOption.map Estado.tabla =
      some [Persona.ciudadano (Valor.ent 2) (Valor.cadena "Bea") (Valor.cadena "Gil")
          (Valor.cadena "19910202") (Valor.ent (-5)),
        Persona.extranjero (Valor.ent 1) (Valor.cadena "Luz") (Valor.cadena "Paz")
          (Valor.cadena "19851231") (Valor.cadena "Chile"),
        Persona.ciudadano (Valor.ent 3) (Valor.cadena "Ana") (Valor.cadena "Diaz")
          (Valor.cadena "19900101") (Valor.ent 123)] := by
  rfl

/-! ## The round trip on arbitrary field values -/

/-- The member written by `JSON.stringify`, by cases on the value. -/
theorem miembroJson_eq (k : String) (v : Valor) :
    miembroJson (k, v) = if v = Valor.undefined then none else some (k, normalizarJson v) := by
  cases v with
  | numero x => cases x <;> simp [miembroJson, normalizarJson, Valor.esNoFinito]
  | undefined => rfl
  | null => rfl
  | booleano b => rfl
  | cadena c => rfl

/-- A value written to JSON and read back is `undefined` only if it was. -/
theorem normalizarJson_eq_undefined (v : Valor) :
    normalizarJson v = Valor.undefined ↔ v = Valor.undefined := by
  unfold normalizarJson
  cases hv : v.esNoFinito with
  | false => simp
  | true =>
    simp only [if_true]
    constructor
    · intro h
      cases h
    · intro h
      rw [h] at hv
      cases hv

/-- Writing to JSON and reading back twice is the same as once. -/
theorem normalizarJson_normalizarJson (v : Valor) :
    normalizarJson (normalizarJson v) = normalizarJson v := by
  unfold normalizarJson
  cases hv : v.esNoFinito with
  | false => simp [hv]
  | true => rfl

/-- Decoding the JSON of a record, in general: nothing when the field that tells the
variant is `undefined`, otherwise the record with every `NaN` and every infinity replaced
by `null`. -/
theorem decodificar_toJson (r : Persona) :
    decodificar (Elemento.objeto (jsonParse r.toJson)) = .ok (
      match r with
      | .ciudadano id n a f d =>
        if d = Valor.undefined then none
        else some (Persona.ciudadano (normalizarJson id) (normalizarJson n) (normalizarJson a)
          (normalizarJson f) (normalizarJson d))
      | .extranjero id n a f p =>
        if p = Valor.undefined then none
        else some (Persona.extranjero (normalizarJson id) (normalizarJson n)
          (normalizarJson a) (normalizarJson f) (normalizarJson p))) := by
  have hu : normalizarJson Valor.undefined = Valor.undefined := rfl
  cases r with
  | ciudadano id n a f d =>
    rw [decodificar_objeto]
    by_cases u1 : id = Valor.undefined <;> by_cases u2 : n = Valor.undefined <;>
      by_cases u3 : a = Valor.undefined <;> by_cases u4 : f = Valor.undefined <;>
      by_cases u5 : d = Valor.undefined <;>
      simp [Persona.toJson, Persona.toJsonBase, jsonStringify, jsonParse, Persona.id,
        Persona.nombre, Persona.apellido, Persona.fechaNacimiento, miembroJson_eq,
        Objeto.extender, Objeto.asignar, reglaDeCarga, Objeto.tiene,
        Objeto.leer, List.lookup, normalizarJson_eq_undefined, normalizarJson_normalizarJson,
        hu, *]
  | extranjero id n a f d =>
    rw [decodificar_objeto]
    by_cases u1 : id = Valor.undefined <;> by_cases u2 : n = Valor.undefined <;>
      by_cases u3 : a = Valor.undefined <;> by_cases u4 : f = Valor.undefined <;>
      by_cases u5 : d = Valor.undefined <;>
      simp [Persona.toJson, Persona.toJsonBase, jsonStringify, jsonParse, Persona.id,
        Persona.nombre, Persona.apellido, Persona.fechaNacimiento, miembroJson_eq,
        Objeto.extender, Objeto.asignar, reglaDeCarga, Objeto.tiene,
        Objeto.leer, List.lookup, normalizarJson_eq_undefined, normalizarJson_normalizarJson,
        hu, *]

/-- The round trip holds for every record that JSON can carry. -/
theorem ida_y_vuelta_general (r : Persona) (h : r.representable) :
    decodificar (Elemento.objeto (jsonParse r.toJson)) = .ok (some r) := by
  rw [decodificar_toJson]
  cases r with
  | ciudadano id n a f d =>
    obtain ⟨h1, h2, h3, h4, h5, h6⟩ := h
    simp [normalizarJson, h1, h2, h3, h4, h5, h6]
  | extranjero id n a f d =>
    obtain ⟨h1, h2, h3, h4, h5, h6⟩ := h
    simp [normalizarJson, h1, h2, h3, h4, h5, h6]

/-! ## Create -/

/-- Every message returned by `validarDatosPersona` is non-empty. -/
theorem validarDatosPersona_mensaje_no_vacio (anioActual : Int) (datos : Datos) (m : String)
    (h : validarDatosPersona anioActual datos = .ok (some m)) : m ≠ "" := by
  unfold validarDatosPersona at h
  split at h
  · cases h
    decide
  · split at h
    · cases h
      decide
    · split at h
      · rename_i resultado hf
        cases h
        exact validarFechaNacimiento_mensaje_no_vacio _ _ _ hf
      · split at h
        · unfold validarDatosCiudadano at h
          split at h
          · cases h
            decide
          · cases h
        · split at h
          · cases h
          · cases h
            decide

/-- A non-empty string is truthy. -/
theorem esVerdadero_cadena (m : String) (h : m ≠ "") : esVerdadero (Valor.cadena m) = true := by
  cases m with
  | mk l =>
    cases l with
    | nil => exact absurd rfl h
    | cons c cs => rfl

/-- The record that `crearNuevoPersona` builds for a `Ciudadano`, with the id `id`. -/
theorem crearNuevoPersona_ciudadano (datos : Datos) (o : Objeto) (e : Estado)
    (ht : datos.tipoSeleccionado = "ciudadano") :
    crearNuevoPersona datos (RespuestaJson.exito (some (Elemento.objeto o))) e =
      if esVerdadero (o.leer "id") = true then
        (ocultarSpinner (enviar (Peticion.post (some (Persona.ciudadano Valor.null
            (Valor.cadena datos.nombre) (Valor.cadena datos.apellido)
            (Valor.cadena datos.fechaNacimiento) (Valor.numero datos.dni))))
          (mostrarSpinner e)),
          some (Persona.ciudadano (o.leer "id") (Valor.cadena datos.nombre)
            (Valor.cadena datos.apellido) (Valor.cadena datos.fechaNacimiento)
            (Valor.numero datos.dni)))
      else
        (ocultarSpinner (alert "No se pudo realizar la operación. Por favor, intenta de nuevo."
          (enviar (Peticion.post (some (Persona.ciudadano Valor.null
            (Valor.cadena datos.nombre) (Valor.cadena datos.apellido)
            (Valor.cadena datos.fechaNacimiento) (Valor.numero datos.dni))))
          (mostrarSpinner e))), none) := by
  unfold crearNuevoPersona
  simp only [ht, if_true, Elemento.leer]
  split <;> rfl

/-- In create mode, on a form that passes validation, `agregarElemento` is
`crearNuevoPersona` followed by the push, the re-rendering without filter, and the hiding
and clearing of the form. -/
theorem agregarElemento_alta (anioActual : Int) (rPost : RespuestaJson) (rPut : Respuesta)
    (e : Estado) (hmodo : e.modoActual = "alta")
    (hval : validarDatosPersona anioActual (obtenerDatosDelFormulario e) = .ok none) :
    agregarElemento anioActual rPost rPut e =
      ⟨limpiarFormularioABM (ocultarFormularioABM
        (match crearNuevoPersona (obtenerDatosDelFormulario e) rPost e with
          | (e1, some nuevoPersona) =>
            actualizarTabla Valor.undefined none
              (alert "Agregado correctamente."
                { e1 with personas := e1.personas ++ [nuevoPersona] })
          | (e1, none) => e1)), none⟩ := by
  have hm : ¬ ("alta" = "modificacion") := by decide
  unfold agregarElemento
  simp only [hval, esVerdadero, Bool.false_eq_true, if_false, hmodo, if_true, hm, false_and]

/-- C11 (counterexample): the store holds one record and a valid `Ciudadano` is submitted
in create mode; the `POST` is answered successfully with the JSON `{"id": 0}`.  The id 0
is an integer, yet `crearNuevoPersona` returns `null` and nothing is appended. -/
theorem C11_contraejemplo :
    validarDatosPersona 2024 (obtenerDatosDelFormulario estadoAlta) = .ok none ∧
    (crearNuevoPersona (obtenerDatosDelFormulario estadoAlta)
      (RespuestaJson.exito (some (Elemento.objeto [("id", Valor.ent 0)]))) estadoAlta).2 = none ∧
    (agregarElemento 2024 (RespuestaJson.exito (some (Elemento.objeto [("id", Valor.ent 0)])))
      (Respuesta.fallo "") estadoAlta).estado.personas = estadoAlta.personas := by
  refine ⟨rfl, by decide, by decide⟩

/-- The outcome of `crearNuevoPersona` for a `Ciudadano` on any successful answer: the
record with the `id` of the body when that `id` is truthy, `null` and an alert otherwise
(no `id`, a falsy `id`, a body that is `null` or cannot be parsed). -/
theorem crearNuevoPersona_ciudadano_exito (datos : Datos) (cuerpo : Option Elemento)
    (e : Estado) (ht : datos.tipoSeleccionado = "ciudadano") :
    crearNuevoPersona datos (RespuestaJson.exito cuerpo) e =
      if esVerdadero (idRecibido cuerpo) = true then
        (ocultarSpinner (enviar (Peticion.post (some (Persona.ciudadano Valor.null
            (Valor.cadena datos.nombre) (Valor.cadena datos.apellido)
            (Valor.cadena datos.fechaNacimiento) (Valor.numero datos.dni))))
          (mostrarSpinner e)),
          some (Persona.ciudadano (idRecibido cuerpo) (Valor.cadena datos.nombre)
            (Valor.cadena datos.apellido) (Valor.cadena datos.fechaNacimiento)
            (Valor.numero datos.dni)))
      else
        (ocultarSpinner (alert "No se pudo realizar la operación. Por favor, intenta de nuevo."
          (enviar (Peticion.post (some (Persona.ciudadano Valor.null
            (Valor.cadena datos.nombre) (Valor.cadena datos.apellido)
            (Valor.cadena datos.fechaNacimiento) (Valor.numero datos.dni))))
          (mostrarSpinner e))), none) := by
  cases cuerpo with
  | none =>
    simp only [idRecibido, esVerdadero, Bool.false_eq_true, if_false]
    unfold crearNuevoPersona
    simp only [ht, if_true]
  | some data =>
    cases data with
    | objeto o => exact crearNuevoPersona_ciudadano datos o e ht
    | primitivo v =>
      cases v <;>
        (simp only [idRecibido, Elemento.leer, esVerdadero, Bool.false_eq_true, if_false]
         unfold crearNuevoPersona
         simp only [ht, if_true, Elemento.leer, esVerdadero, Bool.false_eq_true, if_false])

/-- C11 (amended): a record that passes validation is submitted in create mode and the
`POST` gets a successful response.  If the response JSON contains a truthy `id` (any
integer other than 0), the store afterwards is the old store with one record appended at
the end, carrying the submitted fields and that id.  If the response JSON has no `id`, or
an `id` that is falsy (such as 0), `crearNuevoPersona` returns `null` and the store is
unchanged. -/
theorem C11_alta_con_respuesta (anioActual : Int) (rPut : Respuesta) (e : Estado)
    (cuerpo : Option Elemento) (hmodo : e.modoActual = "alta")
    (hval : validarDatosPersona anioActual (obtenerDatosDelFormulario e) = .ok none) :
    (esVerdadero (idRecibido cuerpo) = true →
      (agregarElemento anioActual (RespuestaJson.exito cuerpo) rPut e).estado.personas =
      e.personas ++ [Persona.ciudadano (idRecibido cuerpo)
        (Valor.cadena e.formulario.nombre) (Valor.cadena e.formulario.apellido)
        (Valor.cadena e.formulario.fechaNacimiento)
        (Valor.numero (obtenerDatosDelFormulario e).dni)]) ∧
    (esVerdadero (idRecibido cuerpo) = false →
      (crearNuevoPersona (obtenerDatosDelFormulario e) (RespuestaJson.exito cuerpo) e).2 =
        none ∧
      (agregarElemento anioActual (RespuestaJson.exito cuerpo) rPut e).estado.personas =
        e.personas) ∧
    (∀ n : Int, idRecibido cuerpo = Valor.ent n →
      (esVerdadero (idRecibido cuerpo) = true ↔ n ≠ 0)) ∧
    (idRecibido cuerpo = Valor.undefined → esVerdadero (idRecibido cuerpo) = false) ∧
    (∀ o : Objeto, cuerpo = some (Elemento.objeto o) → idRecibido cuerpo = o.leer "id") := by
  have ht : (obtenerDatosDelFormulario e).tipoSeleccionado = "ciudadano" :=
    ((validarDatosPersona_acepta_iff _ _).mp hval).2.2.2.1
  have hc := crearNuevoPersona_ciudadano_exito (obtenerDatosDelFormulario e) cuerpo e ht
  have ha := agregarElemento_alta anioActual (RespuestaJson.exito cuerpo) rPut e hmodo hval
  refine ⟨?_, ?_, ?_, ?_, ?_⟩
  · intro hv
    rw [ha, hc, if_pos hv]
    rfl
  · intro hv
    have hv2 : ¬ esVerdadero (idRecibido cuerpo) = true := by simp [hv]
    rw [ha, hc, if_neg hv2]
    exact ⟨rfl, rfl⟩
  · intro n hn
    rw [hn]
    simp [esVerdadero]
  · intro hu
    rw [hu]
    rfl
  · intro o ho
    rw [ho]
    rfl

/-- C11 (witness): the form of `estadoAlta` and the answer `{"id": 2}`. -/
theorem C11_alta_con_respuesta_witness :
    estadoAlta.modoActual = "alta" ∧
    validarDatosPersona 2024 (obtenerDatosDelFormulario estadoAlta) = .ok none ∧
    esVerdadero (idRecibido (some (Elemento.objeto [("id", Valor.ent 2)]))) = true ∧
    (agregarElemento 2024 (RespuestaJson.exito (some (Elemento.objeto [("id", Valor.ent 2)])))
      (Respuesta.fallo "") estadoAlta).estado.personas =
      estadoAlta.personas ++ [Persona.ciudadano
        (idRecibido (some (Elemento.objeto [("id", Valor.ent 2)])))
        (Valor.cadena estadoAlta.formulario.nombre) (Valor.cadena estadoAlta.formulario.apellido)
        (Valor.cadena estadoAlta.formulario.fechaNacimiento)
        (Valor.numero (obtenerDatosDelFormulario estadoAlta).dni)] :=
  ⟨rfl, rfl, rfl,
    (C11_alta_con_respuesta 2024 (Respuesta.fallo "") estadoAlta
      (some (Elemento.objeto [("id", Valor.ent 2)])) rfl rfl).1 rfl⟩

/-- When `validarDatosPersona` returns a message, `agregarElemento` shows it and stops:
no request is sent and the store is left as it was. -/
theorem agregarElemento_mensaje (anioActual : Int) (rPost : RespuestaJson)
    (rPut : Respuesta) (e : Estado) (m : String)
    (hm : validarDatosPersona anioActual (obtenerDatosDelFormulario e) = .ok (some m)) :
    (agregarElemento anioActual rPost rPut e).estado.peticiones = e.peticiones ∧
    (agregarElemento anioActual rPost rPut e).estado.personas = e.personas ∧
    (agregarElemento anioActual rPost rPut e).estado.alertas = e.alertas ++ [m] ∧
    (agregarElemento anioActual rPost rPut e).excepcion = none := by
  have hv := esVerdadero_cadena m (validarDatosPersona_mensaje_no_vacio _ _ _ hm)
  unfold agregarElemento
  simp only [hm, hv, if_true, Option.getD_some, alert, and_self]

/-- C12: when `validarDatosPersona` returns an error message for the form, which it does
for instance when `nombre` is empty or blank, `agregarElemento` shows the message, sends
no request and leaves the store unchanged, in create mode as in any other. -/
theorem C12_validacion_bloquea (anioActual : Int) (rPost : RespuestaJson) (rPut : Respuesta)
    (e : Estado) :
    (∀ m : String, validarDatosPersona anioActual (obtenerDatosDelFormulario e) = .ok (some m) →
      (agregarElemento anioActual rPost rPut e).estado.peticiones = e.peticiones ∧
      (agregarElemento anioActual rPost rPut e).estado.personas = e.personas ∧
      (agregarElemento anioActual rPost rPut e).estado.alertas = e.alertas ++ [m] ∧
      (agregarElemento anioActual rPost rPut e).excepcion = none) ∧
    (esBlanco e.formulario.nombre = true →
      validarDatosPersona anioActual (obtenerDatosDelFormulario e) =
        .ok (some "El nombre no puede estar vacío.")) := by
  constructor
  · intro m hm
    exact agregarElemento_mensaje anioActual rPost rPut e m hm
  · intro hb
    unfold validarDatosPersona
    have hn : esBlanco (obtenerDatosDelFormulario e).nombre = true := hb
    rw [if_pos hn]

/-- C12 (witness): the form of `estadoAlta` with the name left empty. -/
theorem C12_validacion_bloquea_witness :
    validarDatosPersona 2024 (obtenerDatosDelFormulario
      { estadoAlta with formulario := ⟨"", "", "Gil", "19910202", "456", "", "ciudadano"⟩ }) =
      .ok (some "El nombre no puede estar vacío.") ∧
    (agregarElemento 2024 (RespuestaJson.exito (some (Elemento.objeto [("id", Valor.ent 2)])))
      (Respuesta.fallo "")
      { estadoAlta with formulario := ⟨"", "", "Gil", "19910202", "456", "", "ciudadano"⟩
        }).estado.peticiones = [] :=
  ⟨rfl, ((C12_validacion_bloquea 2024
    (RespuestaJson.exito (some (Elemento.objeto [("id", Valor.ent 2)]))) (Respuesta.fallo "")
    { estadoAlta with formulario := ⟨"", "", "Gil", "19910202", "456", "", "ciudadano"⟩ }).1
    "El nombre no puede estar vacío." rfl).1⟩

/-- When `validarDatosPersona` throws, `agregarElemento` ends there: no request, same
store. -/
theorem agregarElemento_excepcion (anioActual : Int) (rPost : RespuestaJson) (rPut : Respuesta)
    (e : Estado) (f : Fallo)
    (h : validarDatosPersona anioActual (obtenerDatosDelFormulario e) = .error f) :
    agregarElemento anioActual rPost rPut e = ⟨e, some f⟩ := by
  unfold agregarElemento
  simp only [h]

/-! ## The table after a mutation -/

/-- C14 (the code at the failing input): the store holds an `Extranjero`, the active
filter is `ciudadano` and a valid `Ciudadano` is created, the server answering with id 2.
The form is hidden, but the table shows both records, the `Extranjero` included, where
`filtrarPersonas` of the active filter on the new store gives the new `Ciudadano` alone. -/
theorem C14_tabla_tras_el_alta_sin_filtro :
    (agregarElemento 2024 (RespuestaJson.exito (some (Elemento.objeto [("id", Valor.ent 2)])))
      (Respuesta.fallo "") estadoAlta).estado.tabla =
      [Persona.extranjero (Valor.ent 1) (Valor.cadena "Luz") (Valor.cadena "Paz")
          (Valor.cadena "19851231") (Valor.cadena "Chile"),
        Persona.ciudadano (Valor.ent 2) (Valor.cadena "Bea") (Valor.cadena "Gil")
          (Valor.cadena "19910202") (Valor.ent 456)] ∧
    filtrarPersonas (Valor.cadena estadoAlta.filtro)
      (agregarElemento 2024 (RespuestaJson.exito (some (Elemento.objeto [("id", Valor.ent 2)])))
        (Respuesta.fallo "") estadoAlta).estado.personas =
      [Persona.ciudadano (Valor.ent 2) (Valor.cadena "Bea") (Valor.cadena "Gil")
        (Valor.cadena "19910202") (Valor.ent 456)] ∧
    (agregarElemento 2024 (RespuestaJson.exito (some (Elemento.objeto [("id", Valor.ent 2)])))
      (Respuesta.fallo "") estadoAlta).estado.formularioVisible = false := by
  decide

/-- After a successful create the table shows the whole new store, whatever the active
filter, and the form is hidden. -/
theorem agregarElemento_tabla (anioActual : Int) (rPut : Respuesta) (e : Estado) (o : Objeto)
    (hmodo : e.modoActual = "alta")
    (hval : validarDatosPersona anioActual (obtenerDatosDelFormulario e) = .ok none)
    (hid : esVerdadero (o.leer "id") = true) :
    (agregarElemento anioActual (RespuestaJson.exito (some (Elemento.objeto o))) rPut
      e).estado.tabla =
      (agregarElemento anioActual (RespuestaJson.exito (some (Elemento.objeto o))) rPut
        e).estado.personas ∧
    (agregarElemento anioActual (RespuestaJson.exito (some (Elemento.objeto o))) rPut
      e).estado.formularioVisible = false := by
  have ht : (obtenerDatosDelFormulario e).tipoSeleccionado = "ciudadano" :=
    ((validarDatosPersona_acepta_iff _ _).mp hval).2.2.2.1
  rw [agregarElemento_alta anioActual _ rPut e hmodo hval,
    crearNuevoPersona_ciudadano (obtenerDatosDelFormulario e) o e ht, if_pos hid]
  constructor
  · simp [limpiarFormularioABM, ocultarFormularioABM, actualizarTabla, filtrarPersonas, alert]
  · rfl

/-- After a successful delete the table shows the new store under the active filter and
the form is hidden. -/
theorem eliminarPersona_tabla (id : Valor) (texto : String) (e : Estado) :
    (eliminarPersona id (Respuesta.exito texto) e).tabla =
      filtrarPersonas (Valor.cadena e.filtro)
        (eliminarPersona id (Respuesta.exito texto) e).personas ∧
    (eliminarPersona id (Respuesta.exito texto) e).formularioVisible = false :=
  ⟨rfl, rfl⟩

/-- C15: filtering is idempotent, for every list of records and every criterion value. -/
theorem C15_filtrado_idempotente (c : Valor) (l : List Persona) :
    filtrarPersonas c (filtrarPersonas c l) = filtrarPersonas c l := by
  unfold filtrarPersonas
  rw [List.filter_filter]
  congr 1
  funext persona
  simp

/-! ## Ids in the store -/

/-- Values that are `===` are equal. -/
theorem eq_of_estrictamenteIgual (a b : Valor) (h : estrictamenteIgual a b = true) : a = b := by
  unfold estrictamenteIgual at h
  split at h
  · cases h
  · cases h
  · simpa using h

/-- Replacing the record found by `findIndex` with a record of the id looked for leaves
the list of ids as it was. -/
theorem map_id_set_findIndexPorId (id : Valor) (p : Persona) (hp : p.id = id)
    (l : List Persona) (i : Nat) (h : findIndexPorId id l = some i) :
    (l.set i p).map Persona.id = l.map Persona.id := by
  induction l generalizing i with
  | nil => cases h
  | cons q qs ih =>
    unfold findIndexPorId at h
    by_cases hq : estrictamenteIgual q.id id = true
    · rw [if_pos hq] at h
      cases h
      simp [hp, eq_of_estrictamenteIgual _ _ hq]
    · rw [if_neg hq] at h
      cases hr : findIndexPorId id qs with
      | none => simp [hr] at h
      | some k =>
        have hik : i = k + 1 := by simpa [hr] using h.symm
        subst hik
        simp [ih k hr]

/-- The handlers of the `PUT` leave the list of ids of the store as it was. -/
theorem map_id_modificarPersonaRespuesta (pm : Option Persona) (r : Respuesta) (e : Estado) :
    (modificarPersonaRespuesta pm r e).personas.map Persona.id = e.personas.map Persona.id := by
  unfold modificarPersonaRespuesta
  cases r with
  | fallo mensaje => rfl
  | noOk => rfl
  | exito texto =>
    cases pm with
    | none =>
      simp only
      split <;> rfl
    | some p =>
      simp only
      cases hf : findIndexPorId p.id (alert texto (ocultarSpinner e)).personas with
      | none => rfl
      | some i => exact map_id_set_findIndexPorId p.id p rfl _ i hf

/-- The part of `modificarPersona` that runs before the answer leaves the store as it was. -/
theorem personas_modificarPersonaEnvio (anioActual : Int) (e : Estado) :
    (modificarPersonaEnvio anioActual e).1.estado.personas = e.personas := by
  unfold modificarPersonaEnvio
  simp only
  split
  · rfl
  · rfl
  · split
    · rfl
    · split <;> rfl

/-- An update leaves the list of ids of the store as it was, whatever the form holds and
whatever the server answers. -/
theorem map_id_modificarPersona (anioActual : Int) (r : Respuesta) (e : Estado) :
    (modificarPersona anioActual r e).estado.personas.map Persona.id =
      e.personas.map Persona.id := by
  have h := personas_modificarPersonaEnvio anioActual e
  unfold modificarPersona
  split
  · rename_i res pm heq
    rw [heq] at h
    have h2 : res.estado.personas = e.personas := h
    simp only [map_id_modificarPersonaRespuesta, h2]
  · rename_i res heq
    rw [heq] at h
    have h2 : res.estado.personas = e.personas := h
    rw [h2]

/-- What `crearNuevoPersona` does to the store, and the id of the record it returns: the
store is left as it was, and a returned record carries the `id` read from the answer. -/
theorem crearNuevoPersona_id (datos : Datos) (r : RespuestaJson) (e : Estado) :
    (crearNuevoPersona datos r e).1.personas = e.personas ∧
    ∀ p, (crearNuevoPersona datos r e).2 = some p →
      ∃ data, r = RespuestaJson.exito (some data) ∧ data.leer "id" = .ok p.id := by
  unfold crearNuevoPersona
  simp only
  split
  · rename_i data
    split
    · rename_i id hid
      split
      · split
        · rename_i q hq
          refine ⟨rfl, ?_⟩
          intro p hp
          cases hp
          refine ⟨data, rfl, ?_⟩
          rw [hid]
          cases q <;> rfl
        · exact ⟨rfl, fun p hp => by cases hp⟩
      · exact ⟨rfl, fun p hp => by cases hp⟩
    · exact ⟨rfl, fun p hp => by cases hp⟩
  · exact ⟨rfl, fun p hp => by cases hp⟩

/-- The store after `agregarElemento` in create mode: the old store, or the old store with
one record appended whose id is the `id` read from the answer to the `POST`. -/
theorem personas_agregarElemento_alta (anioActual : Int) (rPost : RespuestaJson)
    (rPut : Respuesta) (e : Estado) (hmodo : e.modoActual = "alta") :
    (agregarElemento anioActual rPost rPut e).estado.personas = e.personas ∨
    ∃ data p, rPost = RespuestaJson.exito (some data) ∧ data.leer "id" = .ok p.id ∧
      (agregarElemento anioActual rPost rPut e).estado.personas = e.personas ++ [p] := by
  cases hv : validarDatosPersona anioActual (obtenerDatosDelFormulario e) with
  | error f =>
    left
    rw [agregarElemento_excepcion _ _ _ _ f hv]
  | ok m =>
    cases m with
    | some msg =>
      left
      exact ((agregarElemento_mensaje anioActual rPost rPut e msg hv)).2.1
    | none =>
      rw [agregarElemento_alta anioActual rPost rPut e hmodo hv]
      obtain ⟨h1, h2⟩ := crearNuevoPersona_id (obtenerDatosDelFormulario e) rPost e
      cases hc : crearNuevoPersona (obtenerDatosDelFormulario e) rPost e with
      | mk e1 np =>
        rw [hc] at h1 h2
        cases np with
        | none =>
          left
          exact h1
        | some p =>
          right
          obtain ⟨data, hr, hid⟩ := h2 p rfl
          refine ⟨data, p, hr, hid, ?_⟩
          simp only [limpiarFormularioABM, ocultarFormularioABM, actualizarTabla, alert]
          simp only at h1
          rw [h1]

/-- Whether a list has a repeated id depends on its list of ids alone. -/
theorem sinIdsRepetidos_iff_map (l : List Persona) :
    sinIdsRepetidos l ↔ (l.map Persona.id).Pairwise (fun x y => x = y → x = Valor.null) := by
  unfold sinIdsRepetidos
  rw [List.pairwise_map]

/-- One operation in which the server does not send an id twice keeps the store free of
repeated ids. -/
theorem sinIdsRepetidos_ejecutar (anioActual : Int) (op : Operacion) (e : Estado)
    (hs : servidorSinRepetir op e) (hi : sinIdsRepetidos e.personas) :
    sinIdsRepetidos (ejecutar anioActual op e).personas := by
  cases op with
  | cargar status cuerpo =>
    unfold ejecutar cargarDatos
    simp only
    by_cases h200 : status = 200
    · rw [if_pos h200]
      cases cuerpo with
      | invalido => exact hi
      | noArreglo => exact hi
      | arreglo data =>
        simp only
        cases hd : decodificarTodos data with
        | error f => exact hi
        | ok decodificados => exact hs decodificados hd
    · rw [if_neg h200]
      exact hi
  | crear f rPost =>
    have hmodo : ({ e with modoActual := "alta", formulario := f } : Estado).modoActual =
        "alta" := rfl
    have ha : ejecutar anioActual (Operacion.crear f rPost) e =
        (agregarElemento anioActual rPost (Respuesta.fallo "")
          { e with modoActual := "alta", formulario := f }).estado := by
      simp only [ejecutar, aceptar, if_true]
    rw [ha]
    rcases personas_agregarElemento_alta anioActual rPost (Respuesta.fallo "")
      { e with modoActual := "alta", formulario := f } hmodo with h | ⟨data, p, hr, hid, h⟩
    · rw [h]
      exact hi
    · rw [h]
      subst hr
      have hfresh : ∀ q ∈ e.personas, q.id ≠ p.id := hs p.id hid
      unfold sinIdsRepetidos
      rw [List.pairwise_append]
      refine ⟨hi, List.pairwise_singleton _ _, ?_⟩
      intro a ha b hb heq
      rw [List.mem_singleton] at hb
      subst hb
      exact absurd heq (hfresh a ha)
  | modificar f r =>
    have hno : ¬ ("modificacion" = "alta") := by decide
    have ha : ejecutar anioActual (Operacion.modificar f r) e =
        (modificarPersona anioActual r
          { e with modoActual := "modificacion", formulario := f }).estado := by
      simp only [ejecutar, aceptar, hno, if_false, if_true]
    rw [ha, sinIdsRepetidos_iff_map, map_id_modificarPersona, ← sinIdsRepetidos_iff_map]
    exact hi
  | eliminar f r =>
    have hno1 : ¬ ("baja" = "alta") := by decide
    have hno2 : ¬ ("baja" = "modificacion") := by decide
    have ha : ejecutar anioActual (Operacion.eliminar f r) e =
        eliminarPersona (Valor.numero (parseInt f.id.data 0)) r
          { e with modoActual := "baja", formulario := f } := by
      simp only [ejecutar, aceptar, hno1, hno2, if_false, if_true]
    rw [ha]
    unfold sinIdsRepetidos at hi ⊢
    cases r with
    | exito texto => exact hi.sublist (List.filter_sublist _)
    | noOk => exact hi
    | fallo mensaje => exact hi

/-- C13 (counterexample): one load, answered with two objects of id 1, takes the empty
store to a store in which two records have the same id 1. -/
theorem C13_contraejemplo :
    Estado.inicial.personas = [] ∧
    (ejecutar 2024 (Operacion.cargar 200 respuestaRepetida) Estado.inicial).personas.map
      Persona.id = [Valor.ent 1, Valor.ent 1] ∧
    ¬ sinIdsRepetidos
      (ejecutar 2024 (Operacion.cargar 200 respuestaRepetida) Estado.inicial).personas := by
  refine ⟨rfl, by decide, ?_⟩
  unfold sinIdsRepetidos
  decide

/-- C13 (amended): in every state reached from the empty store by any sequence of load,
create, update and delete operations in which the server does not send an id twice (the
records decoded from a load response have no repeated id, the id answered to a create
request is not in the store; the answers to update and delete requests are arbitrary), no
two records of the store have the same id, `null` apart. -/
theorem C13_ids_sin_repetir (anioActual : Int) (e : Estado) (h : Alcanzable anioActual e) :
    sinIdsRepetidos e.personas := by
  induction h with
  | inicial => exact List.Pairwise.nil
  | paso op e _ hs ih => exact sinIdsRepetidos_ejecutar anioActual op e hs ih

/-- C13 (witness): a load of two objects of ids 1 and 2, the creation of a `Ciudadano`
answered with the id 3, the update of the record of id 1 and the deletion of the record of
id 2 lead to a store of two records, of ids 1 and 3. -/
theorem C13_ids_sin_repetir_witness :
    Alcanzable 2024 estadoTrasCuatroOperaciones ∧
    sinIdsRepetidos estadoTrasCuatroOperaciones.personas ∧
    estadoTrasCuatroOperaciones.personas =
      [Persona.ciudadano (Valor.ent 1) (Valor.cadena "Ana Maria") (Valor.cadena "Diaz")
          (Valor.cadena "19900101") (Valor.ent 124),
        Persona.ciudadano (Valor.ent 3) (Valor.cadena "Bea") (Valor.cadena "Gil")
          (Valor.cadena "19910202") (Valor.ent 456)] :=
  have h1 : Alcanzable 2024 (ejecutar 2024 operacionCargaDosIds Estado.inicial) :=
    Alcanzable.paso operacionCargaDosIds Estado.inicial Alcanzable.inicial
      (fun decodificados hd => by
        have h3 : decodificarTodos [
            Elemento.objeto [("id", Valor.ent 1), ("nombre", Valor.cadena "Ana"),
              ("apellido", Valor.cadena "Diaz"), ("fechaNacimiento", Valor.cadena "19900101"),
              ("dni", Valor.ent 123)],
            Elemento.objeto [("id", Valor.ent 2), ("nombre", Valor.cadena "Luz"),
              ("apellido", Valor.cadena "Paz"), ("fechaNacimiento", Valor.cadena "19851231"),
              ("paisOrigen", Valor.cadena "Chile")]] =
            .ok [some (Persona.ciudadano (Valor.ent 1) (Valor.cadena "Ana")
                (Valor.cadena "Diaz") (Valor.cadena "19900101") (Valor.ent 123)),
              some (Persona.extranjero (Valor.ent 2) (Valor.cadena "Luz")
                (Valor.cadena "Paz") (Valor.cadena "19851231") (Valor.cadena "Chile"))] := rfl
        rw [h3] at hd
        cases hd
        unfold sinIdsRepetidos
        decide)
  have h2 : Alcanzable 2024 (ejecutar 2024 operacionAltaBea
      (ejecutar 2024 operacionCargaDosIds Estado.inicial)) :=
    Alcanzable.paso operacionAltaBea _ h1
      (fun v hv => by
        have h3 : Elemento.leer (Elemento.objeto [("id", Valor.ent 3)]) "id" =
            .ok (Valor.ent 3) := rfl
        rw [h3] at hv
        cases hv
        decide)
  have h3 : Alcanzable 2024 (ejecutar 2024 operacionModificaAna (ejecutar 2024 operacionAltaBea
      (ejecutar 2024 operacionCargaDosIds Estado.inicial))) :=
    Alcanzable.paso operacionModificaAna _ h2 True.intro
  have h4 : Alcanzable 2024 estadoTrasCuatroOperaciones :=
    Alcanzable.paso operacionBajaLuz _ h3 True.intro
  ⟨h4, C13_ids_sin_repetir 2024 _ h4, by decide⟩

/-- A value survives JSON unchanged exactly when it is not `NaN` or infinite. -/
theorem normalizarJson_eq_self (v : Valor) :
    normalizarJson v = v ↔ v.esNoFinito = false := by
  unfold normalizarJson
  cases hv : v.esNoFinito with
  | false => simp
  | true =>
    simp only [if_true]
    constructor
    · intro h
      rw [← h] at hv
      cases hv
    · intro h
      cases h

/-- C5 (counterexample): with the id control left empty, `modificarPersona` builds a
`Ciudadano` whose id is `NaN`.  The JSON of that record spells the id as `null`, so
decoding it gives a `Ciudadano` with id `null`, which is not the record that was
serialised. -/
theorem C5_contraejemplo :
    ciudadanoDelFormulario ⟨"", "Ana", "Diaz", "19900101", "123", "", "ciudadano"⟩ =
      Persona.ciudadano (Valor.numero Numero.nan) (Valor.cadena "Ana") (Valor.cadena "Diaz")
        (Valor.cadena "19900101") (Valor.ent 123) ∧
    decodificar (Elemento.objeto (jsonParse (Persona.ciudadano (Valor.numero Numero.nan)
      (Valor.cadena "Ana") (Valor.cadena "Diaz") (Valor.cadena "19900101")
      (Valor.ent 123)).toJson)) =
      .ok (some (Persona.ciudadano Valor.null (Valor.cadena "Ana") (Valor.cadena "Diaz")
        (Valor.cadena "19900101") (Valor.ent 123))) ∧
    Persona.ciudadano Valor.null (Valor.cadena "Ana") (Valor.cadena "Diaz")
        (Valor.cadena "19900101") (Valor.ent 123) ≠
      Persona.ciudadano (Valor.numero Numero.nan) (Valor.cadena "Ana") (Valor.cadena "Diaz")
        (Valor.cadena "19900101") (Valor.ent 123) := by
  refine ⟨by decide, rfl, by decide⟩

/-- C5 (amended): for every `Ciudadano` or `Extranjero` none of whose five fields is `NaN`
or infinite and whose `dni` / `paisOrigen` is not `undefined`, decoding the JSON produced by
`toJson()` with the rule of the load gives a record of the same variant with the same
five fields; and for no other record does the round trip give the record back. -/
theorem C5_ida_y_vuelta (r : Persona) :
    (r.representable →
      decodificar (Elemento.objeto (jsonParse r.toJson)) = .ok (some r)) ∧
    (decodificar (Elemento.objeto (jsonParse r.toJson)) = .ok (some r) →
      r.representable) := by
  constructor
  · exact ida_y_vuelta_general r
  · intro h
    rw [decodificar_toJson] at h
    cases r with
    | ciudadano id n a f d =>
      by_cases hd : d = Valor.undefined
      · simp [hd] at h
      · simp only [hd, if_false, Except.ok.injEq, Option.some.injEq, Persona.ciudadano.injEq,
          normalizarJson_eq_self] at h
        exact ⟨h.1, h.2.1, h.2.2.1, h.2.2.2.1, h.2.2.2.2, hd⟩
    | extranjero id n a f d =>
      by_cases hd : d = Valor.undefined
      · simp [hd] at h
      · simp only [hd, if_false, Except.ok.injEq, Option.some.injEq, Persona.extranjero.injEq,
          normalizarJson_eq_self] at h
        exact ⟨h.1, h.2.1, h.2.2.1, h.2.2.2.1, h.2.2.2.2, hd⟩

/-- C5 (witness): an `Extranjero` whose id is `undefined` (a load response without `id`)
and whose other fields are strings. -/
theorem C5_ida_y_vuelta_witness :
    (Persona.extranjero Valor.undefined (Valor.cadena "Luz") (Valor.cadena "Paz")
      (Valor.cadena "19851231") (Valor.cadena "Chile")).representable ∧
    decodificar (Elemento.objeto (jsonParse (Persona.extranjero Valor.undefined
      (Valor.cadena "Luz") (Valor.cadena "Paz") (Valor.cadena "19851231")
      (Valor.cadena "Chile")).toJson)) =
      .ok (some (Persona.extranjero Valor.undefined (Valor.cadena "Luz") (Valor.cadena "Paz")
        (Valor.cadena "19851231") (Valor.cadena "Chile"))) :=
  have h : (Persona.extranjero Valor.undefined (Valor.cadena "Luz") (Valor.cadena "Paz")
      (Valor.cadena "19851231") (Valor.cadena "Chile")).representable := by
    unfold Persona.representable
    decide
  ⟨h, (C5_ida_y_vuelta _).1 h⟩

end PersonasABM
